import Mathlib

/-!
# terraform-provider-ncloud: auto scaling policy resource and NAT gateway data source

A shallow embedding of

* `internal/service/autoscaling/auto_scaling_policy.go`
* `internal/service/vpc/nat_gateway_data_source.go`

Go pointers are `Option`s (`nil` is `none`), a Go `error` result is an `Outcome`
(`ok` is a `nil` error), a run-time panic (index out of range, nil dereference) is
`Outcome.panic`.  The SDK clients are a record of handlers over a remote state; each
handler call is appended to a log of `SdkCall`s.
-/

namespace Ncloud

/-! ## Go and Terraform plugin SDK primitives -/

/-- A Go `error` value that is not `nil`, carried as its message. -/
abbrev Err := String

/-- Result of a Go function whose last result is an `error`: `ok` stands for a `nil`
error, `err` for a non-nil one, `panic` for a run-time panic that unwinds the call. -/
inductive Outcome (α : Type) where
  | ok (a : α)
  | err (e : Err)
  | panic
  deriving DecidableEq, Repr

/-- The Go conversion `int32(v)` of an `int`: the low 32 bits, read as two's complement. -/
def int32 (v : Int) : Int :=
  (v + 2147483648) % 4294967296 - 2147483648

/-- Result of `validation.IntBetween(min, max)`: true when no error is reported, i.e.
unless `v < min || v > max`. -/
def IntBetween (min max v : Int) : Bool :=
  !(decide (v < min) || decide (v > max))

/-- Result of `validation.StringLenBetween(min, max)`: true when no error is reported,
i.e. unless `len(v) < min || len(v) > max`, `len` being the length in bytes. -/
def StringLenBetween (min max : Nat) (v : String) : Bool :=
  !(decide (v.utf8ByteSize < min) || decide (v.utf8ByteSize > max))

/-- Result of `validation.StringInSlice(valid, false)`: the value is one of `valid`. -/
def StringInSlice (valid : List String) (v : String) : Bool :=
  valid.contains v

/-- The pair returned by `d.GetOk(key)` of the Terraform plugin SDK for an `int` field:
the value, and whether the key "has been set to a non-zero value"; an unset key and
a key set to the zero value of its type both report `false`. -/
def GetOkInt (field : Option Int) : Int × Bool :=
  match field with
  | none => (0, false)
  | some v => (v, decide (v ≠ 0))

/-- The pair returned by `d.GetOk(key)` for a `string` field (zero value `""`). -/
def GetOkString (field : Option String) : String × Bool :=
  match field with
  | none => ("", false)
  | some v => (v, decide (v ≠ ""))

/-- Modelled from the spec: `Int32PtrOrNil` of `internal/common` is not among the
sources; "an unset optional field is omitted from the request, not sent as
zero/empty", so the pair of `GetOk` becomes `nil` when not ok and a pointer to the
`int32` value otherwise. -/
def Int32PtrOrNil (r : Int × Bool) : Option Int :=
  if r.2 then some (int32 r.1) else none

/-! ## Regular expressions (the fragment used by the schema) -/

/-- Regular expressions over character classes given as inclusive ranges. -/
inductive Regex where
  | empty
  | eps
  | cls (ranges : List (Char × Char))
  | alt (r s : Regex)
  | cat (r s : Regex)
  | star (r : Regex)
  deriving Repr

namespace Regex

/-- One or more repetitions, `r+`. -/
def plus (r : Regex) : Regex := cat r (star r)

/-- Membership of a character in a class. -/
def inClass (ranges : List (Char × Char)) (c : Char) : Bool :=
  ranges.any fun p => decide (p.1.toNat ≤ c.toNat) && decide (c.toNat ≤ p.2.toNat)

/-- Whether the empty input is matched. -/
def nullable : Regex → Bool
  | empty => false
  | eps => true
  | cls _ => false
  | alt r s => nullable r || nullable s
  | cat r s => nullable r && nullable s
  | star _ => true

/-- Brzozowski derivative: what remains to be matched after reading `c`. -/
def deriv : Regex → Char → Regex
  | empty, _ => empty
  | eps, _ => empty
  | cls rs, c => if inClass rs c then eps else empty
  | alt r s, c => alt (deriv r c) (deriv s c)
  | cat r s, c =>
    if nullable r then alt (cat (deriv r c) s) (deriv s c) else cat (deriv r c) s
  | star r, c => cat (deriv r c) (star r)

/-- Whether the whole input is matched (the pattern anchored by `^` and `$`). -/
def matchList (r : Regex) : List Char → Bool
  | [] => nullable r
  | c :: cs => matchList (deriv r c) cs

/-- The Go call `re.MatchString(s)` for a pattern of the form `^r$`. -/
def MatchString (r : Regex) (s : String) : Bool :=
  matchList r s.toList

end Regex

/-! ## Schema of `ncloud_auto_scaling_policy` -/

/-- The pattern `[a-z]+[a-z0-9-]+[a-z0-9]` between `^` and `$` of the field `name`. -/
def nameRegex : Regex :=
  .cat (.plus (.cls [('a', 'z')]))
    (.cat (.plus (.cls [('a', 'z'), ('0', '9'), ('-', '-')]))
      (.cls [('a', 'z'), ('0', '9')]))

/-- Validation of `name`:
`validation.All(StringLenBetween(1, 255), StringMatch(nameRegex, ...))`. -/
def validateName (v : String) : Bool :=
  StringLenBetween 1 255 v && nameRegex.MatchString v

/-- Validation of `adjustment_type_code`. -/
def validateAdjustmentTypeCode (v : String) : Bool :=
  StringInSlice ["CHANG", "EXACT", "PRCNT"] v

/-- Validation of `scaling_adjustment`. -/
def validateScalingAdjustment (v : Int) : Bool :=
  IntBetween (-2147483648) 2147483647 v

/-- Validation of `cooldown`. -/
def validateCooldown (v : Int) : Bool :=
  IntBetween 0 2147483647 v

/-- Validation of `min_adjustment_step`. -/
def validateMinAdjustmentStep (v : Int) : Bool :=
  IntBetween 1 2147483647 v

/-! ## Provider configuration and SDK types -/

/-- The fields of `conn.ProviderConfig` read by the two files; the client handles are
the `Sdk` record below. -/
structure ProviderConfig where
  SupportVPC : Bool
  RegionCode : String
  deriving DecidableEq, Repr

/-- The SDK's `CommonCode`. -/
structure CommonCode where
  Code : Option String
  CodeName : Option String
  deriving DecidableEq, Repr

/-- Request `vautoscaling.PutScalingPolicyRequest`. -/
structure VpcPutScalingPolicyRequest where
  RegionCode : Option String
  AdjustmentTypeCode : Option String
  ScalingAdjustment : Option Int
  AutoScalingGroupNo : Option String
  PolicyName : Option String
  MinAdjustmentStep : Option Int
  CoolDown : Option Int
  deriving DecidableEq, Repr

/-- Request `vautoscaling.GetAutoScalingPolicyListRequest`. -/
structure VpcGetAutoScalingPolicyListRequest where
  RegionCode : Option String
  AutoScalingGroupNo : Option String
  PolicyNoList : List (Option String)
  deriving DecidableEq, Repr

/-- Request `vautoscaling.DeleteScalingPolicyRequest`. -/
structure VpcDeleteScalingPolicyRequest where
  RegionCode : Option String
  AutoScalingGroupNo : Option String
  PolicyNo : Option String
  deriving DecidableEq, Repr

/-- Response element `vautoscaling.ScalingPolicy`. -/
structure VpcScalingPolicy where
  AutoScalingGroupNo : Option String
  PolicyNo : Option String
  PolicyName : Option String
  AdjustmentType : Option CommonCode
  ScalingAdjustment : Option Int
  CoolDown : Option Int
  MinAdjustmentStep : Option Int
  deriving DecidableEq, Repr

/-- Request `autoscaling.PutScalingPolicyRequest`. -/
structure ClassicPutScalingPolicyRequest where
  AdjustmentTypeCode : Option String
  ScalingAdjustment : Option Int
  AutoScalingGroupName : Option String
  PolicyName : Option String
  MinAdjustmentStep : Option Int
  Cooldown : Option Int
  deriving DecidableEq, Repr

/-- Request `autoscaling.GetAutoScalingPolicyListRequest`. -/
structure ClassicGetAutoScalingPolicyListRequest where
  PolicyNameList : List (Option String)
  AutoScalingGroupName : Option String
  deriving DecidableEq, Repr

/-- Request `autoscaling.DeletePolicyRequest`. -/
structure ClassicDeletePolicyRequest where
  AutoScalingGroupName : Option String
  PolicyName : Option String
  deriving DecidableEq, Repr

/-- Response element `autoscaling.ScalingPolicy`. -/
structure ClassicScalingPolicy where
  PolicyName : Option String
  AutoScalingGroupName : Option String
  AdjustmentType : Option CommonCode
  ScalingAdjustment : Option Int
  Cooldown : Option Int
  MinAdjustmentStep : Option Int
  deriving DecidableEq, Repr

/-- Request `vpc.GetNatGatewayInstanceListRequest`. -/
structure GetNatGatewayInstanceListRequest where
  RegionCode : Option String
  NatGatewayInstanceNoList : List (Option String)
  NatGatewayName : Option String
  VpcName : Option String
  deriving DecidableEq, Repr

/-- Response element `vpc.NatGatewayInstance`, with the fields the data source reads. -/
structure NatGatewayInstance where
  NatGatewayInstanceNo : Option String
  NatGatewayName : Option String
  NatGatewayDescription : Option String
  PublicIp : Option String
  VpcNo : Option String
  VpcName : Option String
  ZoneCode : Option String
  SubnetNo : Option String
  SubnetName : Option String
  PrivateIp : Option String
  PublicIpInstanceNo : Option String
  deriving DecidableEq, Repr

/-- The provider's `AutoScalingPolicy`, with the fields the adapter fills. -/
structure AutoScalingPolicy where
  AutoScalingPolicyNo : Option String
  AutoScalingPolicyName : Option String
  AutoScalingGroupNo : Option String
  AdjustmentTypeCode : Option String
  ScalingAdjustment : Option Int
  Cooldown : Option Int
  MinAdjustmentStep : Option Int
  deriving DecidableEq, Repr

/-- The provider's `AutoScalingGroup`, with the fields the adapter reads. -/
structure AutoScalingGroup where
  AutoScalingGroupNo : Option String
  AutoScalingGroupName : Option String
  deriving DecidableEq, Repr

/-- The two SDK client families. -/
inductive Family where
  | classic
  | vpc
  deriving DecidableEq, Repr

/-- One recorded SDK request. -/
inductive SdkCall where
  | classicGetAutoScalingGroup (no : String)
  | classicPutScalingPolicy (req : ClassicPutScalingPolicyRequest)
  | classicGetAutoScalingPolicyList (req : ClassicGetAutoScalingPolicyListRequest)
  | classicDeletePolicy (req : ClassicDeletePolicyRequest)
  | vpcPutScalingPolicy (req : VpcPutScalingPolicyRequest)
  | vpcGetAutoScalingPolicyList (req : VpcGetAutoScalingPolicyListRequest)
  | vpcDeleteScalingPolicy (req : VpcDeleteScalingPolicyRequest)
  | vpcGetNatGatewayInstanceList (req : GetNatGatewayInstanceListRequest)
  deriving DecidableEq, Repr

namespace SdkCall

/-- The client family a request went to: `Client.Autoscaling` is classic,
`Client.Vautoscaling` and `Client.Vpc` are VPC. -/
def family : SdkCall → Family
  | classicGetAutoScalingGroup _ => .classic
  | classicPutScalingPolicy _ => .classic
  | classicGetAutoScalingPolicyList _ => .classic
  | classicDeletePolicy _ => .classic
  | vpcPutScalingPolicy _ => .vpc
  | vpcGetAutoScalingPolicyList _ => .vpc
  | vpcDeleteScalingPolicy _ => .vpc
  | vpcGetNatGatewayInstanceList _ => .vpc

/-- The region code a request carries, `none` when it has none. -/
def regionCode : SdkCall → Option String
  | classicGetAutoScalingGroup _ => none
  | classicPutScalingPolicy _ => none
  | classicGetAutoScalingPolicyList _ => none
  | classicDeletePolicy _ => none
  | vpcPutScalingPolicy req => req.RegionCode
  | vpcGetAutoScalingPolicyList req => req.RegionCode
  | vpcDeleteScalingPolicy req => req.RegionCode
  | vpcGetNatGatewayInstanceList req => req.RegionCode

end SdkCall

/-- The SDK clients as handlers over a remote state `σ`: each takes the state and a
request and gives the next state and either an error or the response list. -/
structure Sdk (σ : Type) where
  /-- Parent lookup behind `getClassicAutoScalingGroup`. -/
  classicGetAutoScalingGroup : σ → String → σ × Except Err (Option AutoScalingGroup)
  /-- Handler `Client.Autoscaling.V2Api.PutScalingPolicy`. -/
  classicPutScalingPolicy : σ → ClassicPutScalingPolicyRequest → σ × Except Err Unit
  /-- Handler `Client.Autoscaling.V2Api.GetAutoScalingPolicyList`. -/
  classicGetAutoScalingPolicyList :
    σ → ClassicGetAutoScalingPolicyListRequest → σ × Except Err (List ClassicScalingPolicy)
  /-- Handler `Client.Autoscaling.V2Api.DeletePolicy`. -/
  classicDeletePolicy : σ → ClassicDeletePolicyRequest → σ × Except Err Unit
  /-- Handler `Client.Vautoscaling.V2Api.PutScalingPolicy`. -/
  vpcPutScalingPolicy : σ → VpcPutScalingPolicyRequest → σ × Except Err (List VpcScalingPolicy)
  /-- Handler `Client.Vautoscaling.V2Api.GetAutoScalingPolicyList`. -/
  vpcGetAutoScalingPolicyList :
    σ → VpcGetAutoScalingPolicyListRequest → σ × Except Err (List VpcScalingPolicy)
  /-- Handler `Client.Vautoscaling.V2Api.DeleteScalingPolicy`. -/
  vpcDeleteScalingPolicy : σ → VpcDeleteScalingPolicyRequest → σ × Except Err Unit
  /-- Handler `Client.Vpc.V2Api.GetNatGatewayInstanceList`. -/
  vpcGetNatGatewayInstanceList :
    σ → GetNatGatewayInstanceListRequest → σ × Except Err (List NatGatewayInstance)

/-- The remote state together with the log of the requests issued so far. -/
structure World (σ : Type) where
  remote : σ
  calls : List SdkCall

/-- Issue one request: log it and run its handler on the remote state. -/
def World.call {σ ρ : Type} (w : World σ) (c : SdkCall) (handler : σ → σ × Except Err ρ) :
    World σ × Except Err ρ :=
  ({ remote := (handler w.remote).1, calls := w.calls ++ [c] }, (handler w.remote).2)

/-- The SDK helper `ncloud.StringValue`: the pointee, or `""` for `nil`. -/
def StringValue (p : Option String) : String :=
  p.getD ""

/-! ## `ncloud_auto_scaling_policy` -/

/-- The `schema.ResourceData` of an auto scaling policy: its id and the value of each
schema field, `none` for an optional field that is not set. -/
structure PolicyResourceData where
  id : String
  name : String
  adjustment_type_code : String
  scaling_adjustment : Int
  cooldown : Option Int
  min_adjustment_step : Option Int
  auto_scaling_group_no : String
  deriving DecidableEq, Repr

/-- Modelled from the spec: `getClassicAutoScalingGroup` is defined in a file that is
not among the sources; a classic operation proceeds "by re-resolving a parent
resource first" and "all operations route through the classic SDK client family".  It
issues one request of the classic family for the group number and returns what its
signature `(*AutoScalingGroup, error)` allows: an error, or a pointer that may be
`nil`. -/
def getClassicAutoScalingGroup {σ : Type} (sdk : Sdk σ) (no : String) (w : World σ) :
    World σ × Except Err (Option AutoScalingGroup) :=
  w.call (.classicGetAutoScalingGroup no) (fun s => sdk.classicGetAutoScalingGroup s no)

/-- The request of `createVpcAutoScalingPolicy`. -/
def vpcPutRequest (d : PolicyResourceData) (config : ProviderConfig) :
    VpcPutScalingPolicyRequest :=
  { RegionCode := some config.RegionCode
    AdjustmentTypeCode := some d.adjustment_type_code
    ScalingAdjustment := some (int32 d.scaling_adjustment)
    AutoScalingGroupNo := some d.auto_scaling_group_no
    PolicyName := some d.name
    MinAdjustmentStep := Int32PtrOrNil (GetOkInt d.min_adjustment_step)
    CoolDown := Int32PtrOrNil (GetOkInt d.cooldown) }

/-- Function `createVpcAutoScalingPolicy`. -/
def createVpcAutoScalingPolicy {σ : Type} (sdk : Sdk σ) (d : PolicyResourceData)
    (config : ProviderConfig) (w : World σ) :
    World σ × Outcome (Option String × Option String) :=
  let reqParams := vpcPutRequest d config
  match w.call (.vpcPutScalingPolicy reqParams) (fun s => sdk.vpcPutScalingPolicy s reqParams) with
  | (w, .error err) => (w, .err err)
  | (w, .ok resp) =>
    match resp with
    | [] => (w, .panic)
    | policy :: _ => (w, .ok (policy.AutoScalingGroupNo, policy.PolicyNo))

/-- The request of `createClassicAutoScalingPolicy`, given the resolved group. -/
def classicPutRequest (d : PolicyResourceData) (asg : AutoScalingGroup) :
    ClassicPutScalingPolicyRequest :=
  { AdjustmentTypeCode := some d.adjustment_type_code
    ScalingAdjustment := some (int32 d.scaling_adjustment)
    AutoScalingGroupName := asg.AutoScalingGroupName
    PolicyName := some d.name
    MinAdjustmentStep := Int32PtrOrNil (GetOkInt d.min_adjustment_step)
    Cooldown := Int32PtrOrNil (GetOkInt d.cooldown) }

/-- Function `createClassicAutoScalingPolicy`. -/
def createClassicAutoScalingPolicy {σ : Type} (sdk : Sdk σ) (d : PolicyResourceData)
    (w : World σ) : World σ × Outcome (Option String × Option String) :=
  let no := d.auto_scaling_group_no
  let name := some d.name
  match getClassicAutoScalingGroup sdk no w with
  | (w, .error err) => (w, .err err)
  | (w, .ok none) => (w, .panic)
  | (w, .ok (some asg)) =>
    let reqParams := classicPutRequest d asg
    match w.call (.classicPutScalingPolicy reqParams)
        (fun s => sdk.classicPutScalingPolicy s reqParams) with
    | (w, .error err) => (w, .err err)
    | (w, .ok _) => (w, .ok (some no, name))

/-- Function `createAutoScalingPolicy`. -/
def createAutoScalingPolicy {σ : Type} (sdk : Sdk σ) (d : PolicyResourceData)
    (config : ProviderConfig) (w : World σ) :
    World σ × Outcome (Option String × Option String) :=
  if config.SupportVPC then
    createVpcAutoScalingPolicy sdk d config w
  else
    createClassicAutoScalingPolicy sdk d w

/-- Function `getVpcAutoScalingPolicy`. -/
def getVpcAutoScalingPolicy {σ : Type} (sdk : Sdk σ) (config : ProviderConfig) (id : String)
    (autoScalingGroupNo : String) (w : World σ) : World σ × Outcome (Option AutoScalingPolicy) :=
  let reqParams : VpcGetAutoScalingPolicyListRequest :=
    { RegionCode := some config.RegionCode
      AutoScalingGroupNo := some autoScalingGroupNo
      PolicyNoList := [some id] }
  match w.call (.vpcGetAutoScalingPolicyList reqParams)
      (fun s => sdk.vpcGetAutoScalingPolicyList s reqParams) with
  | (w, .error err) => (w, .err err)
  | (w, .ok resp) =>
    match resp with
    | [] => (w, .panic)
    | p :: _ =>
      match p.AdjustmentType with
      | none => (w, .panic)
      | some adjustmentType =>
        (w, .ok (some
          { AutoScalingPolicyNo := p.PolicyNo
            AutoScalingPolicyName := p.PolicyName
            AutoScalingGroupNo := p.AutoScalingGroupNo
            AdjustmentTypeCode := adjustmentType.Code
            ScalingAdjustment := p.ScalingAdjustment
            Cooldown := p.CoolDown
            MinAdjustmentStep := p.MinAdjustmentStep }))

/-- Function `getClassicAutoScalingPolicy`. -/
def getClassicAutoScalingPolicy {σ : Type} (sdk : Sdk σ) (id : String)
    (autoScalingGroupNo : String) (w : World σ) : World σ × Outcome (Option AutoScalingPolicy) :=
  match getClassicAutoScalingGroup sdk autoScalingGroupNo w with
  | (w, .error err) => (w, .err err)
  | (w, .ok none) => (w, .panic)
  | (w, .ok (some asg)) =>
    let reqParams : ClassicGetAutoScalingPolicyListRequest :=
      { PolicyNameList := [some id]
        AutoScalingGroupName := asg.AutoScalingGroupName }
    match w.call (.classicGetAutoScalingPolicyList reqParams)
        (fun s => sdk.classicGetAutoScalingPolicyList s reqParams) with
    | (w, .error err) => (w, .err err)
    | (w, .ok resp) =>
      match resp with
      | [] => (w, .ok none)
      | p :: _ =>
        match p.AdjustmentType with
        | none => (w, .panic)
        | some adjustmentType =>
          (w, .ok (some
            { AutoScalingPolicyNo := none
              AutoScalingPolicyName := p.PolicyName
              AutoScalingGroupNo := asg.AutoScalingGroupNo
              AdjustmentTypeCode := adjustmentType.Code
              ScalingAdjustment := p.ScalingAdjustment
              Cooldown := p.Cooldown
              MinAdjustmentStep := p.MinAdjustmentStep }))

/-- Function `GetAutoScalingPolicy`. -/
def GetAutoScalingPolicy {σ : Type} (sdk : Sdk σ) (config : ProviderConfig) (id : String)
    (autoScalingGroupNo : String) (w : World σ) : World σ × Outcome (Option AutoScalingPolicy) :=
  if config.SupportVPC then
    getVpcAutoScalingPolicy sdk config id autoScalingGroupNo w
  else
    getClassicAutoScalingPolicy sdk id autoScalingGroupNo w

/-- Function `resourceNcloudAutoScalingPolicyRead`; the resource data is returned with
the outcome.  `setPolicy d policy` stands for
`SetSingularResourceDataFromMapSchema(ResourceNcloudAutoScalingPolicy(), d, ConvertToMap(policy))`,
two helpers of `internal/common` that are not among the sources. -/
def resourceNcloudAutoScalingPolicyRead {σ : Type}
    (setPolicy : PolicyResourceData → AutoScalingPolicy → PolicyResourceData)
    (sdk : Sdk σ) (d : PolicyResourceData) (config : ProviderConfig) (w : World σ) :
    World σ × PolicyResourceData × Outcome Unit :=
  match GetAutoScalingPolicy sdk config d.id d.auto_scaling_group_no w with
  | (w, .err err) => (w, d, .err err)
  | (w, .panic) => (w, d, .panic)
  | (w, .ok none) => (w, { d with id := "" }, .ok ())
  | (w, .ok (some policy)) => (w, setPolicy d policy, .ok ())

/-- Function `resourceNcloudAutoScalingPolicyCreate`. -/
def resourceNcloudAutoScalingPolicyCreate {σ : Type}
    (setPolicy : PolicyResourceData → AutoScalingPolicy → PolicyResourceData)
    (sdk : Sdk σ) (d : PolicyResourceData) (config : ProviderConfig) (w : World σ) :
    World σ × PolicyResourceData × Outcome Unit :=
  match createAutoScalingPolicy sdk d config w with
  | (w, .err err) => (w, d, .err err)
  | (w, .panic) => (w, d, .panic)
  | (w, .ok (autoscaling_group_no, id)) =>
    let d := { d with id := StringValue id }
    let d := { d with auto_scaling_group_no := StringValue autoscaling_group_no }
    resourceNcloudAutoScalingPolicyRead setPolicy sdk d config w

/-- Function `resourceNcloudAutoScalingPolicyUpdate`. -/
def resourceNcloudAutoScalingPolicyUpdate {σ : Type}
    (setPolicy : PolicyResourceData → AutoScalingPolicy → PolicyResourceData)
    (sdk : Sdk σ) (d : PolicyResourceData) (config : ProviderConfig) (w : World σ) :
    World σ × PolicyResourceData × Outcome Unit :=
  match createAutoScalingPolicy sdk d config w with
  | (w, .err err) => (w, d, .err err)
  | (w, .panic) => (w, d, .panic)
  | (w, .ok _) => resourceNcloudAutoScalingPolicyRead setPolicy sdk d config w

/-- Function `deleteVpcAutoScalingPolicy`. -/
def deleteVpcAutoScalingPolicy {σ : Type} (sdk : Sdk σ) (config : ProviderConfig) (id : String)
    (autoScalingGroupNo : String) (w : World σ) : World σ × Outcome Unit :=
  match getVpcAutoScalingPolicy sdk config id autoScalingGroupNo w with
  | (w, .err err) => (w, .err err)
  | (w, .panic) => (w, .panic)
  | (w, .ok none) => (w, .panic)
  | (w, .ok (some p)) =>
    let reqParams : VpcDeleteScalingPolicyRequest :=
      { RegionCode := some config.RegionCode
        AutoScalingGroupNo := p.AutoScalingGroupNo
        PolicyNo := p.AutoScalingPolicyNo }
    match w.call (.vpcDeleteScalingPolicy reqParams)
        (fun s => sdk.vpcDeleteScalingPolicy s reqParams) with
    | (w, .error err) => (w, .err err)
    | (w, .ok _) => (w, .ok ())

/-- Function `deleteClassicAutoScalingPolicy`. -/
def deleteClassicAutoScalingPolicy {σ : Type} (sdk : Sdk σ) (id : String)
    (autoScalingGroupNo : String) (w : World σ) : World σ × Outcome Unit :=
  match getClassicAutoScalingGroup sdk autoScalingGroupNo w with
  | (w, .error err) => (w, .err err)
  | (w, .ok none) => (w, .panic)
  | (w, .ok (some asg)) =>
    let reqParams : ClassicDeletePolicyRequest :=
      { AutoScalingGroupName := asg.AutoScalingGroupName
        PolicyName := some id }
    match w.call (.classicDeletePolicy reqParams)
        (fun s => sdk.classicDeletePolicy s reqParams) with
    | (w, .error err) => (w, .err err)
    | (w, .ok _) => (w, .ok ())

/-- Function `deleteAutoScalingPolicy`. -/
def deleteAutoScalingPolicy {σ : Type} (sdk : Sdk σ) (config : ProviderConfig) (id : String)
    (autoScalingGroupNo : String) (w : World σ) : World σ × Outcome Unit :=
  if config.SupportVPC then
    deleteVpcAutoScalingPolicy sdk config id autoScalingGroupNo w
  else
    deleteClassicAutoScalingPolicy sdk id autoScalingGroupNo w

/-- Function `resourceNcloudAutoScalingPolicyDelete`. -/
def resourceNcloudAutoScalingPolicyDelete {σ : Type} (sdk : Sdk σ) (d : PolicyResourceData)
    (config : ProviderConfig) (w : World σ) : World σ × Outcome Unit :=
  match deleteAutoScalingPolicy sdk config d.id d.auto_scaling_group_no w with
  | (w, .err err) => (w, .err err)
  | (w, .panic) => (w, .panic)
  | (w, .ok _) => (w, .ok ())

/-! ## Data source `ncloud_nat_gateway` -/

/-- One block of the `filter` set of a data source. -/
structure Filter where
  name : String
  values : List String
  regex : Bool
  deriving DecidableEq, Repr

/-- One element of the list built by `getNatGatewayListFiltered`, a
`map[string]interface{}` given by its entries. -/
abbrev ResourceMap := List (String × String)

/-- The `schema.ResourceData` of the data source: the configured arguments (`none`
when not set), the `filter` set (empty when not set), and the attributes in state. -/
structure NatGatewayData where
  id : Option String
  name : Option String
  vpc_name : Option String
  description : Option String
  filter : List Filter
  attributes : ResourceMap
  deriving DecidableEq, Repr

/-- Modelled from the spec: `NotSupportClassic` of `internal/common` is not among the
sources; for an "unsupported operation under current account model" it gives an
"explicit, immediately surfaced error", here the error naming the data source. -/
def NotSupportClassic (name : String) : Err :=
  name ++ " does not support classic"

/-- Modelled from the spec: `ValidateOneResult` of `internal/verify` is not among the
sources; a singular data source must "require that exactly one result remains",
"zero or multiple results is an error", with an "explicit error distinguishing zero
results from multiple results".  `none` is the `nil` error. -/
def ValidateOneResult (resultCount : Nat) : Option Err :=
  if resultCount < 1 then
    some "no results. please change search criteria and try again"
  else if resultCount > 1 then
    some "more than one found results. please change search criteria and try again"
  else
    none

/-- The map literal built for one instance in the loop of `getNatGatewayListFiltered`;
`none` when one of the dereferenced pointers is `nil` (a panic). -/
def natGatewayInstanceMap (r : NatGatewayInstance) : Option ResourceMap := do
  let natGatewayInstanceNo ← r.NatGatewayInstanceNo
  let natGatewayName ← r.NatGatewayName
  let natGatewayDescription ← r.NatGatewayDescription
  let publicIp ← r.PublicIp
  let vpcNo ← r.VpcNo
  let vpcName ← r.VpcName
  let zoneCode ← r.ZoneCode
  let subnetNo ← r.SubnetNo
  let subnetName ← r.SubnetName
  let privateIp ← r.PrivateIp
  let publicIpInstanceNo ← r.PublicIpInstanceNo
  pure
    [ ("id", natGatewayInstanceNo),
      ("nat_gateway_no", natGatewayInstanceNo),
      ("name", natGatewayName),
      ("description", natGatewayDescription),
      ("public_ip", publicIp),
      ("vpc_no", vpcNo),
      ("vpc_name", vpcName),
      ("zone", zoneCode),
      ("subnet_no", subnetNo),
      ("subnet_name", subnetName),
      ("private_ip", privateIp),
      ("public_ip_no", publicIpInstanceNo) ]

/-- The request of `getNatGatewayListFiltered`: the region code, and each of `id`,
`name`, `vpc_name` when `GetOk` reports it. -/
def natGatewayListRequest (d : NatGatewayData) (config : ProviderConfig) :
    GetNatGatewayInstanceListRequest :=
  { RegionCode := some config.RegionCode
    NatGatewayInstanceNoList :=
      if (GetOkString d.id).2 then [some (GetOkString d.id).1] else []
    NatGatewayName :=
      if (GetOkString d.name).2 then some (GetOkString d.name).1 else none
    VpcName :=
      if (GetOkString d.vpc_name).2 then some (GetOkString d.vpc_name).1 else none }

/-- Function `getNatGatewayListFiltered`.  `ApplyFilters fs rs` stands for
`ApplyFilters(f.(*schema.Set), resources, ResourceNcloudNatGateway().Schema)` of
`internal/common`, which is not among the sources. -/
def getNatGatewayListFiltered {σ : Type}
    (ApplyFilters : List Filter → List ResourceMap → List ResourceMap)
    (sdk : Sdk σ) (d : NatGatewayData) (config : ProviderConfig) (w : World σ) :
    World σ × Outcome (List ResourceMap) :=
  let reqParams := natGatewayListRequest d config
  match w.call (.vpcGetNatGatewayInstanceList reqParams)
      (fun s => sdk.vpcGetNatGatewayInstanceList s reqParams) with
  | (w, .error err) => (w, .err err)
  | (w, .ok resp) =>
    match resp.mapM natGatewayInstanceMap with
    | none => (w, .panic)
    | some resources =>
      if d.filter ≠ [] then
        (w, .ok (ApplyFilters d.filter resources))
      else
        (w, .ok resources)

/-- Function `dataSourceNcloudNatGatewayRead`; the resource data is returned with the
outcome.  `SetSingularResourceDataFromMap` of `internal/common` is not among the
sources and is a parameter. -/
def dataSourceNcloudNatGatewayRead {σ : Type}
    (ApplyFilters : List Filter → List ResourceMap → List ResourceMap)
    (SetSingularResourceDataFromMap : NatGatewayData → ResourceMap → NatGatewayData)
    (sdk : Sdk σ) (d : NatGatewayData) (config : ProviderConfig) (w : World σ) :
    World σ × NatGatewayData × Outcome Unit :=
  if !config.SupportVPC then
    (w, d, .err (NotSupportClassic "data source `ncloud_nat_gateway`"))
  else
    match getNatGatewayListFiltered ApplyFilters sdk d config w with
    | (w, .err err) => (w, d, .err err)
    | (w, .panic) => (w, d, .panic)
    | (w, .ok resources) =>
      match ValidateOneResult resources.length with
      | some err => (w, d, .err err)
      | none =>
        match resources with
        | [] => (w, d, .panic)
        | r :: _ => (w, SetSingularResourceDataFromMap d r, .ok ())

/-! ## A model of the remote platform

The platform keeps the auto scaling groups, the policies that `PutScalingPolicy` sent,
and the NAT gateways.  A policy is keyed by its group and its name; a put of an
existing key replaces the stored fields and keeps the policy number (an upsert), a
put of a new key draws the next number. -/

/-- A policy as the platform stores it: what the put request sent, and the number the
platform gave it. -/
structure StoredPolicy where
  PolicyNo : String
  AutoScalingGroupNo : Option String
  AutoScalingGroupName : Option String
  PolicyName : Option String
  AdjustmentTypeCode : Option String
  ScalingAdjustment : Option Int
  Cooldown : Option Int
  MinAdjustmentStep : Option Int
  deriving DecidableEq, Repr

/-- State of the remote platform. -/
structure Remote where
  groups : List AutoScalingGroup
  policies : List StoredPolicy
  nextNo : Nat
  natGateways : List NatGatewayInstance
  deriving DecidableEq, Repr

namespace Remote

/-- Decimal numeral of the `n`-th policy number. -/
def policyNo (n : Nat) : String :=
  toString n

/-- Store `mk no` under the key `key`: the number is the one already stored under the
key, or the next free one. -/
def upsert (key : StoredPolicy → Bool) (mk : String → StoredPolicy) (s : Remote) :
    Remote × StoredPolicy :=
  match s.policies.find? key with
  | some old =>
    ({ s with policies := mk old.PolicyNo :: s.policies.filter fun q => !key q },
      mk old.PolicyNo)
  | none =>
    ({ s with
        policies := mk (policyNo s.nextNo) :: s.policies.filter fun q => !key q
        nextNo := s.nextNo + 1 },
      mk (policyNo s.nextNo))

/-- A stored policy in the shape of `vautoscaling.ScalingPolicy`. -/
def toVpc (p : StoredPolicy) : VpcScalingPolicy :=
  { AutoScalingGroupNo := p.AutoScalingGroupNo
    PolicyNo := some p.PolicyNo
    PolicyName := p.PolicyName
    AdjustmentType := some { Code := p.AdjustmentTypeCode, CodeName := none }
    ScalingAdjustment := p.ScalingAdjustment
    CoolDown := p.Cooldown
    MinAdjustmentStep := p.MinAdjustmentStep }

/-- A stored policy in the shape of `autoscaling.ScalingPolicy`. -/
def toClassic (p : StoredPolicy) : ClassicScalingPolicy :=
  { PolicyName := p.PolicyName
    AutoScalingGroupName := p.AutoScalingGroupName
    AdjustmentType := some { Code := p.AdjustmentTypeCode, CodeName := none }
    ScalingAdjustment := p.ScalingAdjustment
    Cooldown := p.Cooldown
    MinAdjustmentStep := p.MinAdjustmentStep }

/-- Key of a VPC put: group number and policy name. -/
def vpcKey (req : VpcPutScalingPolicyRequest) (q : StoredPolicy) : Bool :=
  decide (q.AutoScalingGroupNo = req.AutoScalingGroupNo) && decide (q.PolicyName = req.PolicyName)

/-- What a VPC put stores. -/
def vpcStored (req : VpcPutScalingPolicyRequest) (no : String) : StoredPolicy :=
  { PolicyNo := no
    AutoScalingGroupNo := req.AutoScalingGroupNo
    AutoScalingGroupName := none
    PolicyName := req.PolicyName
    AdjustmentTypeCode := req.AdjustmentTypeCode
    ScalingAdjustment := req.ScalingAdjustment
    Cooldown := req.CoolDown
    MinAdjustmentStep := req.MinAdjustmentStep }

/-- Key of a classic put: group name and policy name. -/
def classicKey (req : ClassicPutScalingPolicyRequest) (q : StoredPolicy) : Bool :=
  decide (q.AutoScalingGroupName = req.AutoScalingGroupName) &&
    decide (q.PolicyName = req.PolicyName)

/-- What a classic put stores. -/
def classicStored (req : ClassicPutScalingPolicyRequest) (no : String) : StoredPolicy :=
  { PolicyNo := no
    AutoScalingGroupNo := none
    AutoScalingGroupName := req.AutoScalingGroupName
    PolicyName := req.PolicyName
    AdjustmentTypeCode := req.AdjustmentTypeCode
    ScalingAdjustment := req.ScalingAdjustment
    Cooldown := req.Cooldown
    MinAdjustmentStep := req.MinAdjustmentStep }

/-- Whether a NAT gateway is selected by a list request. -/
def natGatewaySelected (req : GetNatGatewayInstanceListRequest) (g : NatGatewayInstance) : Bool :=
  (req.NatGatewayInstanceNoList.isEmpty || req.NatGatewayInstanceNoList.contains g.NatGatewayInstanceNo)
    && (req.NatGatewayName.isNone || decide (req.NatGatewayName = g.NatGatewayName))
    && (req.VpcName.isNone || decide (req.VpcName = g.VpcName))

/-- The SDK clients served by the remote platform. -/
def sdk : Sdk Remote where
  classicGetAutoScalingGroup s no :=
    (s, .ok (s.groups.find? fun g => decide (g.AutoScalingGroupNo = some no)))
  classicPutScalingPolicy s req :=
    ((upsert (classicKey req) (classicStored req) s).1, .ok ())
  classicGetAutoScalingPolicyList s req :=
    (s, .ok ((s.policies.filter fun q =>
      decide (q.AutoScalingGroupName = req.AutoScalingGroupName) &&
        req.PolicyNameList.contains q.PolicyName).map toClassic))
  classicDeletePolicy s req :=
    ({ s with policies := s.policies.filter fun q =>
        !(decide (q.AutoScalingGroupName = req.AutoScalingGroupName) &&
          decide (q.PolicyName = req.PolicyName)) }, .ok ())
  vpcPutScalingPolicy s req :=
    ((upsert (vpcKey req) (vpcStored req) s).1,
      .ok [toVpc (upsert (vpcKey req) (vpcStored req) s).2])
  vpcGetAutoScalingPolicyList s req :=
    (s, .ok ((s.policies.filter fun q =>
      decide (q.AutoScalingGroupNo = req.AutoScalingGroupNo) &&
        req.PolicyNoList.contains (some q.PolicyNo)).map toVpc))
  vpcDeleteScalingPolicy s req :=
    ({ s with policies := s.policies.filter fun q =>
        !(decide (q.AutoScalingGroupNo = req.AutoScalingGroupNo) &&
          decide (some q.PolicyNo = req.PolicyNo)) }, .ok ())
  vpcGetNatGatewayInstanceList s req :=
    (s, .ok (s.natGateways.filter (natGatewaySelected req)))

/-- A platform with one auto scaling group, no policy and no NAT gateway. -/
def initial : Remote :=
  { groups := [{ AutoScalingGroupNo := some "100", AutoScalingGroupName := some "asg" }]
    policies := []
    nextNo := 1
    natGateways := [] }

end Remote

/-- A world with nothing logged yet. -/
def World.start {σ : Type} (s : σ) : World σ :=
  { remote := s, calls := [] }

/-- A configuration of the VPC account model. -/
def vpcConfig : ProviderConfig :=
  { SupportVPC := true, RegionCode := "KR" }

/-- A configuration of the classic account model. -/
def classicConfig : ProviderConfig :=
  { SupportVPC := false, RegionCode := "KR" }

/-- A valid policy configuration whose `cooldown` is explicitly set to `0`. -/
def zeroCooldownPolicy : PolicyResourceData :=
  { id := ""
    name := "scale-out"
    adjustment_type_code := "CHANG"
    scaling_adjustment := 2
    cooldown := some 0
    min_adjustment_step := none
    auto_scaling_group_no := "100" }

/-- A valid policy configuration that sets both optional fields to non-zero values. -/
def fullPolicy : PolicyResourceData :=
  { id := "1"
    name := "scale-in"
    adjustment_type_code := "PRCNT"
    scaling_adjustment := -10
    cooldown := some 300
    min_adjustment_step := some 1
    auto_scaling_group_no := "100" }

/-- A platform that holds group `100` and, in it, the policy `scale-in` under number `1`. -/
def policyRemote : Remote :=
  { Remote.initial with
    policies :=
      [{ PolicyNo := "1"
         AutoScalingGroupNo := some "100"
         AutoScalingGroupName := some "asg"
         PolicyName := some "scale-in"
         AdjustmentTypeCode := some "PRCNT"
         ScalingAdjustment := some (-10)
         Cooldown := some 300
         MinAdjustmentStep := some 1 }]
    nextNo := 2 }

/-- A NAT gateway with every field present. -/
def sampleNatGateway : NatGatewayInstance :=
  { NatGatewayInstanceNo := some "7"
    NatGatewayName := some "nat"
    NatGatewayDescription := some ""
    PublicIp := some "1.2.3.4"
    VpcNo := some "1"
    VpcName := some "vpc"
    ZoneCode := some "KR-1"
    SubnetNo := some "2"
    SubnetName := some "sub"
    PrivateIp := some "10.0.0.1"
    PublicIpInstanceNo := some "3" }

/-- A platform holding the one NAT gateway `sampleNatGateway`. -/
def natRemote : Remote :=
  { Remote.initial with natGateways := [sampleNatGateway] }

/-- A data source configuration with no argument and no filter. -/
def emptyNatGatewayData : NatGatewayData :=
  { id := none, name := none, vpc_name := none, description := none, filter := [],
    attributes := [] }

/-- A stand-in for `SetSingularResourceDataFromMap`: the map becomes the attributes. -/
def setAttributes (d : NatGatewayData) (m : ResourceMap) : NatGatewayData :=
  { d with attributes := m }

/-- A stand-in for `ApplyFilters`: keep the resources that have, for each filter, an
entry under the filter's name whose value is one of the filter's values. -/
def filterByValues (fs : List Filter) (rs : List ResourceMap) : List ResourceMap :=
  rs.filter fun r => fs.all fun f => r.any fun kv => kv.1 == f.name && f.values.contains kv.2

/-- A stand-in for `SetSingularResourceDataFromMapSchema` after `ConvertToMap`: each
field of the policy that is not `nil` is written to the resource data. -/
def setPolicyFields (d : PolicyResourceData) (p : AutoScalingPolicy) : PolicyResourceData :=
  { d with
    name := p.AutoScalingPolicyName.getD d.name
    adjustment_type_code := p.AdjustmentTypeCode.getD d.adjustment_type_code
    scaling_adjustment := p.ScalingAdjustment.getD d.scaling_adjustment
    cooldown := p.Cooldown <|> d.cooldown
    min_adjustment_step := p.MinAdjustmentStep <|> d.min_adjustment_step
    auto_scaling_group_no := p.AutoScalingGroupNo.getD d.auto_scaling_group_no }

/-- The rule stated by the message of the `name` validation: only lowercase letters,
digits and hyphens, starting with a letter, ending with a letter or a digit. -/
def nameMessageRule (s : String) : Bool :=
  s.toList.all (fun c => c.isLower || c.isDigit || c == '-') &&
    (match s.toList.head? with
      | some c => c.isLower
      | none => false) &&
    (match s.toList.getLast? with
      | some c => c.isLower || c.isDigit
      | none => false)

/-- How a request designates a resource: through a name field (`PolicyName`,
`PolicyNameList`, `AutoScalingGroupName`) or through a number field (`PolicyNo`,
`PolicyNoList`, `AutoScalingGroupNo`). -/
inductive Ref where
  | name (v : Option String)
  | no (v : Option String)
  deriving DecidableEq, Repr

namespace Ref

/-- Whether the reference is through a name field. -/
def isName : Ref → Bool
  | name _ => true
  | no _ => false

/-- Whether the reference is through a number field. -/
def isNo : Ref → Bool
  | name _ => false
  | no _ => true

end Ref

namespace SdkCall

/-- The fields through which a policy request designates the policy. -/
def policyRefs : SdkCall → List Ref
  | classicPutScalingPolicy req => [.name req.PolicyName]
  | classicGetAutoScalingPolicyList req => req.PolicyNameList.map .name
  | classicDeletePolicy req => [.name req.PolicyName]
  | vpcPutScalingPolicy req => [.name req.PolicyName]
  | vpcGetAutoScalingPolicyList req => req.PolicyNoList.map .no
  | vpcDeleteScalingPolicy req => [.no req.PolicyNo]
  | classicGetAutoScalingGroup _ => []
  | vpcGetNatGatewayInstanceList _ => []

/-- The field through which a policy request designates the auto scaling group.  The
parent lookup of `getClassicAutoScalingGroup` is the step that resolves the group
number to the group; its own request is not among the sources and has no entry. -/
def groupRefs : SdkCall → List Ref
  | classicPutScalingPolicy req => [.name req.AutoScalingGroupName]
  | classicGetAutoScalingPolicyList req => [.name req.AutoScalingGroupName]
  | classicDeletePolicy req => [.name req.AutoScalingGroupName]
  | vpcPutScalingPolicy req => [.no req.AutoScalingGroupNo]
  | vpcGetAutoScalingPolicyList req => [.no req.AutoScalingGroupNo]
  | vpcDeleteScalingPolicy req => [.no req.AutoScalingGroupNo]
  | classicGetAutoScalingGroup _ => []
  | vpcGetNatGatewayInstanceList _ => []

/-- Whether the request is a `PutScalingPolicy` of either family. -/
def isPut : SdkCall → Bool
  | classicPutScalingPolicy _ => true
  | vpcPutScalingPolicy _ => true
  | _ => false

end SdkCall

/-- The `PutScalingPolicy` requests of a log, in order. -/
def putRequests (calls : List SdkCall) : List SdkCall :=
  calls.filter SdkCall.isPut

/-- Denotation of a regular expression: the inputs it matches as a whole. -/
inductive Regex.Matches : Regex → List Char → Prop where
  | eps : Matches .eps []
  | cls {rs : List (Char × Char)} {c : Char} (h : Regex.inClass rs c = true) : Matches (.cls rs) [c]
  | altLeft {r s : Regex} {w : List Char} (h : Matches r w) : Matches (.alt r s) w
  | altRight {r s : Regex} {w : List Char} (h : Matches s w) : Matches (.alt r s) w
  | cat {r s : Regex} {u v : List Char} (hr : Matches r u) (hs : Matches s v) :
      Matches (.cat r s) (u ++ v)
  | starNil {r : Regex} : Matches (.star r) []
  | starCons {r : Regex} {u v : List Char} (hr : Matches r u) (hs : Matches (.star r) v) :
      Matches (.star r) (u ++ v)

/-! ## Theorems -/

/-- C10: for a `scaling_adjustment` accepted by its validation the conversion `int32`
loses nothing, so the put request of either account model carries the configured
value; and every `cooldown` and `min_adjustment_step` accepted by its validation lies
in the `int32` range and is unchanged by the conversion. -/
theorem int32_lossless_on_validated (d : PolicyResourceData) (config : ProviderConfig)
    (asg : AutoScalingGroup) (c m : Int)
    (h : validateScalingAdjustment d.scaling_adjustment = true) :
    (vpcPutRequest d config).ScalingAdjustment = some d.scaling_adjustment ∧
    (classicPutRequest d asg).ScalingAdjustment = some d.scaling_adjustment ∧
    (validateCooldown c = true → -2147483648 ≤ c ∧ c ≤ 2147483647 ∧ int32 c = c) ∧
    (validateMinAdjustmentStep m = true → -2147483648 ≤ m ∧ m ≤ 2147483647 ∧ int32 m = m) := by
  simp only [validateScalingAdjustment, validateCooldown, validateMinAdjustmentStep, IntBetween,
    Bool.not_eq_true', Bool.or_eq_false_iff, decide_eq_false_iff_not, vpcPutRequest,
    classicPutRequest, int32, Option.some.injEq] at *
  refine ⟨by omega, by omega, fun hc => ⟨by omega, by omega, by omega⟩,
    fun hm => ⟨by omega, by omega, by omega⟩⟩

/-- Witness of C10 at `scaling_adjustment = -2147483648`, `cooldown = 2147483647`,
`min_adjustment_step = 1`. -/
theorem int32_lossless_on_validated_witness :
    validateScalingAdjustment (-2147483648) = true ∧
    (vpcPutRequest { fullPolicy with scaling_adjustment := -2147483648 }
      vpcConfig).ScalingAdjustment = some (-2147483648) ∧
    int32 2147483647 = 2147483647 ∧ int32 1 = 1 :=
  have h := int32_lossless_on_validated { fullPolicy with scaling_adjustment := -2147483648 }
    vpcConfig ⟨some "100", some "asg"⟩ 2147483647 1 (by decide)
  ⟨by decide, h.1, (h.2.2.1 (by decide)).2.2, (h.2.2.2 (by decide)).2.2⟩

/-- C3: under a configuration with `SupportVPC = false` the data source read returns
the `NotSupportClassic` error, a non-nil error, with the world (remote state and
request log) and the resource data exactly as they were: no request is issued. -/
theorem natGateway_read_classic_unsupported {σ : Type}
    (ApplyFilters : List Filter → List ResourceMap → List ResourceMap)
    (SetSingularResourceDataFromMap : NatGatewayData → ResourceMap → NatGatewayData)
    (sdk : Sdk σ) (d : NatGatewayData) (config : ProviderConfig) (w : World σ)
    (h : config.SupportVPC = false) :
    dataSourceNcloudNatGatewayRead ApplyFilters SetSingularResourceDataFromMap sdk d config w =
      (w, d, .err (NotSupportClassic "data source `ncloud_nat_gateway`")) := by
  simp [dataSourceNcloudNatGatewayRead, h]

/-- Witness of C3 on the platform holding one NAT gateway. -/
theorem natGateway_read_classic_unsupported_witness :
    classicConfig.SupportVPC = false ∧
    (dataSourceNcloudNatGatewayRead filterByValues setAttributes Remote.sdk emptyNatGatewayData
      classicConfig (World.start natRemote)).1.calls = [] ∧
    (dataSourceNcloudNatGatewayRead filterByValues setAttributes Remote.sdk emptyNatGatewayData
      classicConfig (World.start natRemote)).2 =
        (emptyNatGatewayData, .err (NotSupportClassic "data source `ncloud_nat_gateway`")) := by
  have h := natGateway_read_classic_unsupported filterByValues setAttributes Remote.sdk
    emptyNatGatewayData classicConfig (World.start natRemote) rfl
  exact ⟨rfl, by rw [h]; rfl, by rw [h]⟩

/-- C2: under a VPC configuration, when `getNatGatewayListFiltered` returns the list
`resources` with a nil error, the data source read returns an error for an empty
list, returns an error for a list of more than one element, returns no error exactly
when the list has one element, and then the resource data is the one set from
`resources[0]`. -/
theorem natGateway_read_exactly_one {σ : Type}
    (ApplyFilters : List Filter → List ResourceMap → List ResourceMap)
    (SetSingularResourceDataFromMap : NatGatewayData → ResourceMap → NatGatewayData)
    (sdk : Sdk σ) (d : NatGatewayData) (config : ProviderConfig) (w w' : World σ)
    (resources : List ResourceMap)
    (hvpc : config.SupportVPC = true)
    (hlist : getNatGatewayListFiltered ApplyFilters sdk d config w = (w', .ok resources)) :
    (resources.length = 0 →
      ∃ e, dataSourceNcloudNatGatewayRead ApplyFilters SetSingularResourceDataFromMap sdk d
        config w = (w', d, .err e)) ∧
    (1 < resources.length →
      ∃ e, dataSourceNcloudNatGatewayRead ApplyFilters SetSingularResourceDataFromMap sdk d
        config w = (w', d, .err e)) ∧
    ((dataSourceNcloudNatGatewayRead ApplyFilters SetSingularResourceDataFromMap sdk d
        config w).2.2 = .ok () ↔ resources.length = 1) ∧
    (∀ h : 0 < resources.length, resources.length = 1 →
      dataSourceNcloudNatGatewayRead ApplyFilters SetSingularResourceDataFromMap sdk d
        config w = (w', SetSingularResourceDataFromMap d (resources.get ⟨0, h⟩), .ok ())) := by
  match resources, hlist with
  | [], hlist =>
    simp [dataSourceNcloudNatGatewayRead, hvpc, hlist, ValidateOneResult]
  | [r], hlist =>
    simp [dataSourceNcloudNatGatewayRead, hvpc, hlist, ValidateOneResult]
  | r :: r' :: rest, hlist =>
    simp [dataSourceNcloudNatGatewayRead, hvpc, hlist, ValidateOneResult]

/-- Witness of C2 on the platform holding one NAT gateway: the read succeeds and the
attributes are those of that gateway. -/
theorem natGateway_read_exactly_one_witness :
    (dataSourceNcloudNatGatewayRead filterByValues setAttributes Remote.sdk emptyNatGatewayData
      vpcConfig (World.start natRemote)).2 =
        (setAttributes emptyNatGatewayData
          [("id", "7"), ("nat_gateway_no", "7"), ("name", "nat"), ("description", ""),
            ("public_ip", "1.2.3.4"), ("vpc_no", "1"), ("vpc_name", "vpc"), ("zone", "KR-1"),
            ("subnet_no", "2"), ("subnet_name", "sub"), ("private_ip", "10.0.0.1"),
            ("public_ip_no", "3")], .ok ()) := by
  have h := (natGateway_read_exactly_one filterByValues setAttributes Remote.sdk
    emptyNatGatewayData vpcConfig (World.start natRemote)
    (getNatGatewayListFiltered filterByValues Remote.sdk emptyNatGatewayData vpcConfig
      (World.start natRemote)).1
    [[("id", "7"), ("nat_gateway_no", "7"), ("name", "nat"), ("description", ""),
      ("public_ip", "1.2.3.4"), ("vpc_no", "1"), ("vpc_name", "vpc"), ("zone", "KR-1"),
      ("subnet_no", "2"), ("subnet_name", "sub"), ("private_ip", "10.0.0.1"),
      ("public_ip_no", "3")]] rfl rfl).2.2.2 (by decide) rfl
  rw [h]
  rfl

/-- The classic path of `GetAutoScalingPolicy` has the guard on an empty list: when the
parent group resolves and the policy list comes back empty with no error, it returns
no policy and no error, and the read clears the id and returns no error. -/
theorem classic_read_not_found {σ : Type}
    (setPolicy : PolicyResourceData → AutoScalingPolicy → PolicyResourceData)
    (sdk : Sdk σ) (d : PolicyResourceData) (config : ProviderConfig) (w : World σ)
    (asg : AutoScalingGroup)
    (hclassic : config.SupportVPC = false)
    (hgroup : (sdk.classicGetAutoScalingGroup w.remote d.auto_scaling_group_no).2 = .ok (some asg))
    (hlist : (sdk.classicGetAutoScalingPolicyList
      (sdk.classicGetAutoScalingGroup w.remote d.auto_scaling_group_no).1
      { PolicyNameList := [some d.id], AutoScalingGroupName := asg.AutoScalingGroupName }).2
        = .ok []) :
    (GetAutoScalingPolicy sdk config d.id d.auto_scaling_group_no w).2 = .ok none ∧
    (resourceNcloudAutoScalingPolicyRead setPolicy sdk d config w).2 =
      ({ d with id := "" }, .ok ()) := by
  have hget : (GetAutoScalingPolicy sdk config d.id d.auto_scaling_group_no w).2 = .ok none := by
    simp [GetAutoScalingPolicy, hclassic, getClassicAutoScalingPolicy,
      getClassicAutoScalingGroup, World.call, hgroup, hlist]
  refine ⟨hget, ?_⟩
  unfold resourceNcloudAutoScalingPolicyRead
  rcases hres : GetAutoScalingPolicy sdk config d.id d.auto_scaling_group_no w with ⟨w', o⟩
  rw [hres] at hget
  simp only at hget
  subst hget
  rfl

/-- The VPC path of `GetAutoScalingPolicy` has no such guard: whenever the policy list
comes back empty with no error, it panics on `resp.ScalingPolicyList[0]`, and so does
the read. -/
theorem vpc_read_not_found_panics {σ : Type}
    (setPolicy : PolicyResourceData → AutoScalingPolicy → PolicyResourceData)
    (sdk : Sdk σ) (d : PolicyResourceData) (config : ProviderConfig) (w : World σ)
    (hvpc : config.SupportVPC = true)
    (hlist : (sdk.vpcGetAutoScalingPolicyList w.remote
      { RegionCode := some config.RegionCode, AutoScalingGroupNo := some d.auto_scaling_group_no,
        PolicyNoList := [some d.id] }).2 = .ok []) :
    (GetAutoScalingPolicy sdk config d.id d.auto_scaling_group_no w).2 = .panic ∧
    (resourceNcloudAutoScalingPolicyRead setPolicy sdk d config w).2 = (d, .panic) := by
  have hget : (GetAutoScalingPolicy sdk config d.id d.auto_scaling_group_no w).2 = .panic := by
    simp [GetAutoScalingPolicy, hvpc, getVpcAutoScalingPolicy, World.call, hlist]
  refine ⟨hget, ?_⟩
  unfold resourceNcloudAutoScalingPolicyRead
  rcases hres : GetAutoScalingPolicy sdk config d.id d.auto_scaling_group_no w with ⟨w', o⟩
  rw [hres] at hget
  simp only at hget
  subst hget
  rfl

/-- C1 (code bug, VPC path): on the platform that holds no policy, the SDK answers the
list request for policy `1` of group `100` with an empty list and no error, yet
`GetAutoScalingPolicy` panics instead of returning no policy and no error, and the
read panics instead of clearing the id; the classic path on the same platform behaves
as the claim says. -/
theorem read_not_found_vpc_panics :
    (Remote.sdk.vpcGetAutoScalingPolicyList Remote.initial
      { RegionCode := some "KR", AutoScalingGroupNo := some "100",
        PolicyNoList := [some "1"] }).2 = .ok [] ∧
    (GetAutoScalingPolicy Remote.sdk vpcConfig "1" "100" (World.start Remote.initial)).2
      = .panic ∧
    (resourceNcloudAutoScalingPolicyRead setPolicyFields Remote.sdk fullPolicy vpcConfig
      (World.start Remote.initial)).2 = (fullPolicy, .panic) ∧
    (GetAutoScalingPolicy Remote.sdk classicConfig "1" "100" (World.start Remote.initial)).2
      = .ok none ∧
    (resourceNcloudAutoScalingPolicyRead setPolicyFields Remote.sdk fullPolicy classicConfig
      (World.start Remote.initial)).2 = ({ fullPolicy with id := "" }, .ok ()) := by
  refine ⟨rfl, ?_, ?_, ?_, ?_⟩ <;> decide

/-- C6 (code bug, VPC path): on the platform that holds no policy every SDK call
returns no error and the policy list for the id is empty, yet
`deleteAutoScalingPolicy` panics under the VPC model instead of returning nil; under
the classic model it returns nil. -/
theorem delete_already_gone_vpc_panics :
    (Remote.sdk.vpcGetAutoScalingPolicyList Remote.initial
      { RegionCode := some "KR", AutoScalingGroupNo := some "100",
        PolicyNoList := [some "1"] }).2 = .ok [] ∧
    (deleteAutoScalingPolicy Remote.sdk vpcConfig "1" "100" (World.start Remote.initial)).2
      = .panic ∧
    (deleteAutoScalingPolicy Remote.sdk classicConfig "1" "100"
      (World.start Remote.initial)).2 = .ok () := by
  refine ⟨rfl, ?_, ?_⟩ <;> decide

/-- The optional fields of the put request of either account model: `nil` when the
field is not set, a pointer to the value when it is set to a non-zero value its
validation accepts, and `nil` again when it is set to `0`. -/
theorem put_request_optional_fields (d : PolicyResourceData) (config : ProviderConfig)
    (asg : AutoScalingGroup) :
    (d.cooldown = none →
      (vpcPutRequest d config).CoolDown = none ∧ (classicPutRequest d asg).Cooldown = none) ∧
    (d.min_adjustment_step = none →
      (vpcPutRequest d config).MinAdjustmentStep = none ∧
      (classicPutRequest d asg).MinAdjustmentStep = none) ∧
    (∀ v, d.cooldown = some v → validateCooldown v = true → v ≠ 0 →
      (vpcPutRequest d config).CoolDown = some v ∧ (classicPutRequest d asg).Cooldown = some v) ∧
    (∀ v, d.min_adjustment_step = some v → validateMinAdjustmentStep v = true →
      (vpcPutRequest d config).MinAdjustmentStep = some v ∧
      (classicPutRequest d asg).MinAdjustmentStep = some v) ∧
    (d.cooldown = some 0 →
      (vpcPutRequest d config).CoolDown = none ∧ (classicPutRequest d asg).Cooldown = none) ∧
    (vpcPutRequest d config).AdjustmentTypeCode = some d.adjustment_type_code ∧
    (classicPutRequest d asg).AdjustmentTypeCode = some d.adjustment_type_code ∧
    (vpcPutRequest d config).PolicyName = some d.name ∧
    (classicPutRequest d asg).PolicyName = some d.name := by
  refine ⟨?_, ?_, ?_, ?_, ?_, rfl, rfl, rfl, rfl⟩
  · intro h
    simp [vpcPutRequest, classicPutRequest, h, GetOkInt, Int32PtrOrNil]
  · intro h
    simp [vpcPutRequest, classicPutRequest, h, GetOkInt, Int32PtrOrNil]
  · intro v h hv hne
    simp only [validateCooldown, IntBetween, Bool.not_eq_true', Bool.or_eq_false_iff,
      decide_eq_false_iff_not] at hv
    have h32 : int32 v = v := by unfold int32; omega
    simp [vpcPutRequest, classicPutRequest, h, GetOkInt, Int32PtrOrNil, hne, h32]
  · intro v h hv
    simp only [validateMinAdjustmentStep, IntBetween, Bool.not_eq_true', Bool.or_eq_false_iff,
      decide_eq_false_iff_not] at hv
    have h32 : int32 v = v := by unfold int32; omega
    have hne : v ≠ 0 := by omega
    simp [vpcPutRequest, classicPutRequest, h, GetOkInt, Int32PtrOrNil, hne, h32]
  · intro h
    simp [vpcPutRequest, classicPutRequest, h, GetOkInt, Int32PtrOrNil]

/-- C5 (code bug): `cooldown = 0` is accepted by the validation of `cooldown`, and a
configuration that sets it explicitly to `0` yields, under both account models, a
put request whose cooldown field is `nil` rather than a pointer to `0`. -/
theorem create_drops_zero_cooldown :
    validateCooldown 0 = true ∧
    zeroCooldownPolicy.cooldown = some 0 ∧
    (createAutoScalingPolicy Remote.sdk zeroCooldownPolicy vpcConfig
      (World.start Remote.initial)).1.calls =
        [.vpcPutScalingPolicy
          { RegionCode := some "KR"
            AdjustmentTypeCode := some "CHANG"
            ScalingAdjustment := some 2
            AutoScalingGroupNo := some "100"
            PolicyName := some "scale-out"
            MinAdjustmentStep := none
            CoolDown := none }] ∧
    (createAutoScalingPolicy Remote.sdk zeroCooldownPolicy classicConfig
      (World.start Remote.initial)).1.calls =
        [.classicGetAutoScalingGroup "100",
          .classicPutScalingPolicy
            { AdjustmentTypeCode := some "CHANG"
              ScalingAdjustment := some 2
              AutoScalingGroupName := some "asg"
              PolicyName := some "scale-out"
              MinAdjustmentStep := none
              Cooldown := none }] := by
  decide

/-- C7 (code bug): for the valid configuration that sets `cooldown` to `0`, create
followed by `GetAutoScalingPolicy` with the identifiers create returned yields, under
both account models, a policy whose cooldown is `nil`, not the configured `0`; the
other fields come back as configured. -/
theorem round_trip_loses_zero_cooldown :
    validateName zeroCooldownPolicy.name = true ∧
    validateAdjustmentTypeCode zeroCooldownPolicy.adjustment_type_code = true ∧
    validateScalingAdjustment zeroCooldownPolicy.scaling_adjustment = true ∧
    validateCooldown 0 = true ∧
    zeroCooldownPolicy.cooldown = some 0 ∧
    (createAutoScalingPolicy Remote.sdk zeroCooldownPolicy vpcConfig
      (World.start Remote.initial)).2 = .ok (some "100", some "1") ∧
    (GetAutoScalingPolicy Remote.sdk vpcConfig "1" "100"
      (createAutoScalingPolicy Remote.sdk zeroCooldownPolicy vpcConfig
        (World.start Remote.initial)).1).2 =
      .ok (some
        { AutoScalingPolicyNo := some "1"
          AutoScalingPolicyName := some "scale-out"
          AutoScalingGroupNo := some "100"
          AdjustmentTypeCode := some "CHANG"
          ScalingAdjustment := some 2
          Cooldown := none
          MinAdjustmentStep := none }) ∧
    (createAutoScalingPolicy Remote.sdk zeroCooldownPolicy classicConfig
      (World.start Remote.initial)).2 = .ok (some "100", some "scale-out") ∧
    (GetAutoScalingPolicy Remote.sdk classicConfig "scale-out" "100"
      (createAutoScalingPolicy Remote.sdk zeroCooldownPolicy classicConfig
        (World.start Remote.initial)).1).2 =
      .ok (some
        { AutoScalingPolicyNo := none
          AutoScalingPolicyName := some "scale-out"
          AutoScalingGroupNo := some "100"
          AdjustmentTypeCode := some "CHANG"
          ScalingAdjustment := some 2
          Cooldown := none
          MinAdjustmentStep := none }) := by
  decide

/-- C9 (code bug): the names `a` and `ab` have a length between 1 and 255 and satisfy
the rule of the message, yet the validation of `name` rejects them: the pattern needs
at least three characters. -/
theorem validateName_rejects_short_names :
    StringLenBetween 1 255 "a" = true ∧ nameMessageRule "a" = true ∧
    validateName "a" = false ∧
    StringLenBetween 1 255 "ab" = true ∧ nameMessageRule "ab" = true ∧
    validateName "ab" = false ∧
    validateName "abc" = true := by
  decide

/-! ### The requests each operation issues -/

/-- The VPC create issues exactly one request, the put built from the configuration. -/
theorem createVpcAutoScalingPolicy_calls {σ : Type} (sdk : Sdk σ) (d : PolicyResourceData)
    (config : ProviderConfig) (w : World σ) :
    (createVpcAutoScalingPolicy sdk d config w).1.calls =
      w.calls ++ [.vpcPutScalingPolicy (vpcPutRequest d config)] := by
  unfold createVpcAutoScalingPolicy
  rcases h : (sdk.vpcPutScalingPolicy w.remote (vpcPutRequest d config)).2 with err | resp
  · simp [World.call, h]
  · cases resp <;> simp [World.call, h]

/-- The VPC get issues exactly one request, the list request for the id and group number. -/
theorem getVpcAutoScalingPolicy_calls {σ : Type} (sdk : Sdk σ) (config : ProviderConfig)
    (id autoScalingGroupNo : String) (w : World σ) :
    (getVpcAutoScalingPolicy sdk config id autoScalingGroupNo w).1.calls =
      w.calls ++ [.vpcGetAutoScalingPolicyList
        { RegionCode := some config.RegionCode, AutoScalingGroupNo := some autoScalingGroupNo,
          PolicyNoList := [some id] }] := by
  unfold getVpcAutoScalingPolicy
  rcases h : (sdk.vpcGetAutoScalingPolicyList w.remote
    { RegionCode := some config.RegionCode, AutoScalingGroupNo := some autoScalingGroupNo,
      PolicyNoList := [some id] }).2 with err | resp
  · simp [World.call, h]
  · rcases resp with _ | ⟨p, rest⟩
    · simp [World.call, h]
    · cases hp : p.AdjustmentType <;> simp [World.call, h, hp]

/-- The VPC delete issues the list request and, when the lookup succeeds, one delete request
carrying the region code. -/
theorem deleteVpcAutoScalingPolicy_calls {σ : Type} (sdk : Sdk σ) (config : ProviderConfig)
    (id autoScalingGroupNo : String) (w : World σ) :
    (deleteVpcAutoScalingPolicy sdk config id autoScalingGroupNo w).1.calls =
        w.calls ++ [.vpcGetAutoScalingPolicyList
          { RegionCode := some config.RegionCode, AutoScalingGroupNo := some autoScalingGroupNo,
            PolicyNoList := [some id] }] ∨
    ∃ groupNo policyNo,
      (deleteVpcAutoScalingPolicy sdk config id autoScalingGroupNo w).1.calls =
        w.calls ++ [.vpcGetAutoScalingPolicyList
          { RegionCode := some config.RegionCode, AutoScalingGroupNo := some autoScalingGroupNo,
            PolicyNoList := [some id] },
          .vpcDeleteScalingPolicy
            { RegionCode := some config.RegionCode, AutoScalingGroupNo := groupNo,
              PolicyNo := policyNo }] := by
  have hcalls := getVpcAutoScalingPolicy_calls sdk config id autoScalingGroupNo w
  unfold deleteVpcAutoScalingPolicy
  rcases hget : getVpcAutoScalingPolicy sdk config id autoScalingGroupNo w with ⟨w', o⟩
  rw [hget] at hcalls
  simp only at hcalls
  rcases o with (_ | p) | err | _
  · exact Or.inl (by simpa using hcalls)
  · refine Or.inr ⟨p.AutoScalingGroupNo, p.AutoScalingPolicyNo, ?_⟩
    rcases h : (sdk.vpcDeleteScalingPolicy w'.remote
      { RegionCode := some config.RegionCode, AutoScalingGroupNo := p.AutoScalingGroupNo,
        PolicyNo := p.AutoScalingPolicyNo }).2 with err | r <;>
      simp [World.call, h, hcalls]
  · exact Or.inl (by simpa using hcalls)
  · exact Or.inl (by simpa using hcalls)

/-- The classic create issues the parent lookup and, when it yields a group, the put built
from the configuration and that group. -/
theorem createClassicAutoScalingPolicy_calls {σ : Type} (sdk : Sdk σ) (d : PolicyResourceData)
    (w : World σ) :
    (createClassicAutoScalingPolicy sdk d w).1.calls =
        w.calls ++ [.classicGetAutoScalingGroup d.auto_scaling_group_no] ∨
    ∃ asg,
      (sdk.classicGetAutoScalingGroup w.remote d.auto_scaling_group_no).2 = .ok (some asg) ∧
      (createClassicAutoScalingPolicy sdk d w).1.calls =
        w.calls ++ [.classicGetAutoScalingGroup d.auto_scaling_group_no,
          .classicPutScalingPolicy (classicPutRequest d asg)] := by
  unfold createClassicAutoScalingPolicy
  rcases hg : (sdk.classicGetAutoScalingGroup w.remote d.auto_scaling_group_no).2
    with err | (_ | asg)
  · exact Or.inl (by simp [getClassicAutoScalingGroup, World.call, hg])
  · exact Or.inl (by simp [getClassicAutoScalingGroup, World.call, hg])
  · refine Or.inr ⟨asg, rfl, ?_⟩
    rcases h : (sdk.classicPutScalingPolicy
      (sdk.classicGetAutoScalingGroup w.remote d.auto_scaling_group_no).1
      (classicPutRequest d asg)).2 with err | r <;>
      simp [getClassicAutoScalingGroup, World.call, hg, h]

/-- The classic get issues the parent lookup and, when it yields a group, the list request
by policy name and group name. -/
theorem getClassicAutoScalingPolicy_calls {σ : Type} (sdk : Sdk σ)
    (id autoScalingGroupNo : String) (w : World σ) :
    (getClassicAutoScalingPolicy sdk id autoScalingGroupNo w).1.calls =
        w.calls ++ [.classicGetAutoScalingGroup autoScalingGroupNo] ∨
    ∃ asg,
      (sdk.classicGetAutoScalingGroup w.remote autoScalingGroupNo).2 = .ok (some asg) ∧
      (getClassicAutoScalingPolicy sdk id autoScalingGroupNo w).1.calls =
        w.calls ++ [.classicGetAutoScalingGroup autoScalingGroupNo,
          .classicGetAutoScalingPolicyList
            { PolicyNameList := [some id], AutoScalingGroupName := asg.AutoScalingGroupName }] := by
  unfold getClassicAutoScalingPolicy
  rcases hg : (sdk.classicGetAutoScalingGroup w.remote autoScalingGroupNo).2
    with err | (_ | asg)
  · exact Or.inl (by simp [getClassicAutoScalingGroup, World.call, hg])
  · exact Or.inl (by simp [getClassicAutoScalingGroup, World.call, hg])
  · refine Or.inr ⟨asg, rfl, ?_⟩
    rcases h : (sdk.classicGetAutoScalingPolicyList
      (sdk.classicGetAutoScalingGroup w.remote autoScalingGroupNo).1
      { PolicyNameList := [some id], AutoScalingGroupName := asg.AutoScalingGroupName }).2
      with err | resp
    · simp [getClassicAutoScalingGroup, World.call, hg, h]
    · rcases resp with _ | ⟨p, rest⟩
      · simp [getClassicAutoScalingGroup, World.call, hg, h]
      · cases hp : p.AdjustmentType <;>
          simp [getClassicAutoScalingGroup, World.call, hg, h, hp]

/-- The classic delete issues the parent lookup and, when it yields a group, the delete
request by group name and policy name. -/
theorem deleteClassicAutoScalingPolicy_calls {σ : Type} (sdk : Sdk σ)
    (id autoScalingGroupNo : String) (w : World σ) :
    (deleteClassicAutoScalingPolicy sdk id autoScalingGroupNo w).1.calls =
        w.calls ++ [.classicGetAutoScalingGroup autoScalingGroupNo] ∨
    ∃ asg,
      (sdk.classicGetAutoScalingGroup w.remote autoScalingGroupNo).2 = .ok (some asg) ∧
      (deleteClassicAutoScalingPolicy sdk id autoScalingGroupNo w).1.calls =
        w.calls ++ [.classicGetAutoScalingGroup autoScalingGroupNo,
          .classicDeletePolicy
            { AutoScalingGroupName := asg.AutoScalingGroupName, PolicyName := some id }] := by
  unfold deleteClassicAutoScalingPolicy
  rcases hg : (sdk.classicGetAutoScalingGroup w.remote autoScalingGroupNo).2
    with err | (_ | asg)
  · exact Or.inl (by simp [getClassicAutoScalingGroup, World.call, hg])
  · exact Or.inl (by simp [getClassicAutoScalingGroup, World.call, hg])
  · refine Or.inr ⟨asg, rfl, ?_⟩
    rcases h : (sdk.classicDeletePolicy
      (sdk.classicGetAutoScalingGroup w.remote autoScalingGroupNo).1
      { AutoScalingGroupName := asg.AutoScalingGroupName, PolicyName := some id }).2
      with err | r <;>
      simp [getClassicAutoScalingGroup, World.call, hg, h]

/-- Every request that create, get and delete of an auto scaling policy log, over any
recording SDK: each operation logs at least one request; with `SupportVPC = false`
the logged requests are of the classic family, without region code, and designate
policy and group through name fields; with `SupportVPC = true` they are of the VPC
family, carry the region code of the configuration and designate the group through
`AutoScalingGroupNo`, get and delete designating the policy through number fields; no
log mixes the two families. -/
theorem routing_logged_calls {σ : Type} (sdk : Sdk σ) (d : PolicyResourceData)
    (config : ProviderConfig) (id autoScalingGroupNo : String) (s : σ) :
    let createCalls := (createAutoScalingPolicy sdk d config (World.start s)).1.calls
    let getCalls := (GetAutoScalingPolicy sdk config id autoScalingGroupNo (World.start s)).1.calls
    let deleteCalls :=
      (deleteAutoScalingPolicy sdk config id autoScalingGroupNo (World.start s)).1.calls
    (createCalls ≠ [] ∧ getCalls ≠ [] ∧ deleteCalls ≠ []) ∧
    (config.SupportVPC = false →
      (∀ c ∈ createCalls ++ getCalls ++ deleteCalls,
        c.family = .classic ∧ c.regionCode = none ∧
          ∀ r ∈ c.policyRefs ++ c.groupRefs, r.isName = true) ∧
      (∀ c ∈ createCalls, ∀ r ∈ c.policyRefs, r = .name (some d.name)) ∧
      (∀ c ∈ getCalls ++ deleteCalls, ∀ r ∈ c.policyRefs, r = .name (some id))) ∧
    (config.SupportVPC = true →
      (∀ c ∈ createCalls ++ getCalls ++ deleteCalls,
        c.family = .vpc ∧ c.regionCode = some config.RegionCode ∧
          ∀ r ∈ c.groupRefs, r.isNo = true) ∧
      (∀ c ∈ getCalls ++ deleteCalls, ∀ r ∈ c.policyRefs, r.isNo = true) ∧
      (∀ c ∈ getCalls,
        c.policyRefs = [.no (some id)] ∧ c.groupRefs = [.no (some autoScalingGroupNo)])) ∧
    (∀ calls ∈ [createCalls, getCalls, deleteCalls],
      ∀ c₁ ∈ calls, ∀ c₂ ∈ calls, c₁.family = c₂.family) := by
  intro createCalls getCalls deleteCalls
  cases hv : config.SupportVPC
  · have hc : createCalls = (createClassicAutoScalingPolicy sdk d (World.start s)).1.calls := by
      simp [createCalls, createAutoScalingPolicy, hv]
    have hg : getCalls =
        (getClassicAutoScalingPolicy sdk id autoScalingGroupNo (World.start s)).1.calls := by
      simp [getCalls, GetAutoScalingPolicy, hv]
    have hd : deleteCalls =
        (deleteClassicAutoScalingPolicy sdk id autoScalingGroupNo (World.start s)).1.calls := by
      simp [deleteCalls, deleteAutoScalingPolicy, hv]
    rcases createClassicAutoScalingPolicy_calls sdk d (World.start s) with h1 | ⟨a1, -, h1⟩ <;>
    rcases getClassicAutoScalingPolicy_calls sdk id autoScalingGroupNo (World.start s)
      with h2 | ⟨a2, -, h2⟩ <;>
    rcases deleteClassicAutoScalingPolicy_calls sdk id autoScalingGroupNo (World.start s)
      with h3 | ⟨a3, -, h3⟩ <;>
    · rw [hc, hg, hd, h1, h2, h3]
      simp [World.start, SdkCall.family, SdkCall.regionCode, SdkCall.policyRefs,
        SdkCall.groupRefs, Ref.isName, classicPutRequest]
  · have hc : createCalls = (createVpcAutoScalingPolicy sdk d config (World.start s)).1.calls := by
      simp [createCalls, createAutoScalingPolicy, hv]
    have hg : getCalls =
        (getVpcAutoScalingPolicy sdk config id autoScalingGroupNo (World.start s)).1.calls := by
      simp [getCalls, GetAutoScalingPolicy, hv]
    have hd : deleteCalls =
        (deleteVpcAutoScalingPolicy sdk config id autoScalingGroupNo (World.start s)).1.calls := by
      simp [deleteCalls, deleteAutoScalingPolicy, hv]
    have h1 := createVpcAutoScalingPolicy_calls sdk d config (World.start s)
    have h2 := getVpcAutoScalingPolicy_calls sdk config id autoScalingGroupNo (World.start s)
    rcases deleteVpcAutoScalingPolicy_calls sdk config id autoScalingGroupNo (World.start s)
      with h3 | ⟨g, n, h3⟩ <;>
    · rw [hc, hg, hd, h1, h2, h3]
      simp [World.start, SdkCall.family, SdkCall.regionCode, SdkCall.policyRefs,
        SdkCall.groupRefs, Ref.isNo, vpcPutRequest]

/-- The VPC delete, when the list request yields a policy with an adjustment type, logs
the list request followed by the delete request for the number and group number of
that policy. -/
theorem deleteVpcAutoScalingPolicy_calls_of_found {σ : Type} (sdk : Sdk σ)
    (config : ProviderConfig) (id autoScalingGroupNo : String) (w : World σ)
    (p : VpcScalingPolicy) (rest : List VpcScalingPolicy) (t : CommonCode)
    (hlist : (sdk.vpcGetAutoScalingPolicyList w.remote
      { RegionCode := some config.RegionCode, AutoScalingGroupNo := some autoScalingGroupNo,
        PolicyNoList := [some id] }).2 = .ok (p :: rest))
    (htype : p.AdjustmentType = some t) :
    (deleteVpcAutoScalingPolicy sdk config id autoScalingGroupNo w).1.calls =
      w.calls ++ [.vpcGetAutoScalingPolicyList
          { RegionCode := some config.RegionCode, AutoScalingGroupNo := some autoScalingGroupNo,
            PolicyNoList := [some id] },
        .vpcDeleteScalingPolicy
          { RegionCode := some config.RegionCode, AutoScalingGroupNo := p.AutoScalingGroupNo,
            PolicyNo := p.PolicyNo }] := by
  unfold deleteVpcAutoScalingPolicy getVpcAutoScalingPolicy
  rcases h : (sdk.vpcDeleteScalingPolicy
    (sdk.vpcGetAutoScalingPolicyList w.remote
      { RegionCode := some config.RegionCode, AutoScalingGroupNo := some autoScalingGroupNo,
        PolicyNoList := [some id] }).1
    { RegionCode := some config.RegionCode, AutoScalingGroupNo := p.AutoScalingGroupNo,
      PolicyNo := p.PolicyNo }).2 with err | r <;>
    simp [World.call, hlist, htype, h]

/-- The VPC delete, when the list request fails or yields no policy, logs the list
request alone. -/
theorem deleteVpcAutoScalingPolicy_calls_of_missing {σ : Type} (sdk : Sdk σ)
    (config : ProviderConfig) (id autoScalingGroupNo : String) (w : World σ)
    (hlist : ∀ p rest, (sdk.vpcGetAutoScalingPolicyList w.remote
      { RegionCode := some config.RegionCode, AutoScalingGroupNo := some autoScalingGroupNo,
        PolicyNoList := [some id] }).2 ≠ .ok (p :: rest)) :
    (deleteVpcAutoScalingPolicy sdk config id autoScalingGroupNo w).1.calls =
      w.calls ++ [.vpcGetAutoScalingPolicyList
          { RegionCode := some config.RegionCode, AutoScalingGroupNo := some autoScalingGroupNo,
            PolicyNoList := [some id] }] := by
  unfold deleteVpcAutoScalingPolicy getVpcAutoScalingPolicy
  rcases h : (sdk.vpcGetAutoScalingPolicyList w.remote
    { RegionCode := some config.RegionCode, AutoScalingGroupNo := some autoScalingGroupNo,
      PolicyNoList := [some id] }).2 with err | resp
  · simp [World.call, h]
  · rcases resp with _ | ⟨p, rest⟩
    · simp [World.call, h]
    · exact absurd h (hlist p rest)

/-- The classic create, when the parent lookup yields a group, logs the lookup followed
by the put built from the configuration and that group. -/
theorem createClassicAutoScalingPolicy_calls_of_group {σ : Type} (sdk : Sdk σ)
    (d : PolicyResourceData) (w : World σ) (asg : AutoScalingGroup)
    (hgroup : (sdk.classicGetAutoScalingGroup w.remote d.auto_scaling_group_no).2
      = .ok (some asg)) :
    (createClassicAutoScalingPolicy sdk d w).1.calls =
      w.calls ++ [.classicGetAutoScalingGroup d.auto_scaling_group_no,
        .classicPutScalingPolicy (classicPutRequest d asg)] := by
  unfold createClassicAutoScalingPolicy
  rcases h : (sdk.classicPutScalingPolicy
    (sdk.classicGetAutoScalingGroup w.remote d.auto_scaling_group_no).1
    (classicPutRequest d asg)).2 with err | r <;>
    simp [getClassicAutoScalingGroup, World.call, hgroup, h]

/-- The classic get, when the parent lookup yields a group, logs the lookup followed by
the list request by policy name and group name. -/
theorem getClassicAutoScalingPolicy_calls_of_group {σ : Type} (sdk : Sdk σ)
    (id autoScalingGroupNo : String) (w : World σ) (asg : AutoScalingGroup)
    (hgroup : (sdk.classicGetAutoScalingGroup w.remote autoScalingGroupNo).2 = .ok (some asg)) :
    (getClassicAutoScalingPolicy sdk id autoScalingGroupNo w).1.calls =
      w.calls ++ [.classicGetAutoScalingGroup autoScalingGroupNo,
        .classicGetAutoScalingPolicyList
          { PolicyNameList := [some id], AutoScalingGroupName := asg.AutoScalingGroupName }] := by
  unfold getClassicAutoScalingPolicy
  rcases h : (sdk.classicGetAutoScalingPolicyList
    (sdk.classicGetAutoScalingGroup w.remote autoScalingGroupNo).1
    { PolicyNameList := [some id], AutoScalingGroupName := asg.AutoScalingGroupName }).2
    with err | resp
  · simp [getClassicAutoScalingGroup, World.call, hgroup, h]
  · rcases resp with _ | ⟨p, rest⟩
    · simp [getClassicAutoScalingGroup, World.call, hgroup, h]
    · cases hp : p.AdjustmentType <;>
        simp [getClassicAutoScalingGroup, World.call, hgroup, h, hp]

/-- The classic delete, when the parent lookup yields a group, logs the lookup followed
by the delete request by group name and policy name. -/
theorem deleteClassicAutoScalingPolicy_calls_of_group {σ : Type} (sdk : Sdk σ)
    (id autoScalingGroupNo : String) (w : World σ) (asg : AutoScalingGroup)
    (hgroup : (sdk.classicGetAutoScalingGroup w.remote autoScalingGroupNo).2 = .ok (some asg)) :
    (deleteClassicAutoScalingPolicy sdk id autoScalingGroupNo w).1.calls =
      w.calls ++ [.classicGetAutoScalingGroup autoScalingGroupNo,
        .classicDeletePolicy
          { AutoScalingGroupName := asg.AutoScalingGroupName, PolicyName := some id }] := by
  unfold deleteClassicAutoScalingPolicy
  rcases h : (sdk.classicDeletePolicy
    (sdk.classicGetAutoScalingGroup w.remote autoScalingGroupNo).1
    { AutoScalingGroupName := asg.AutoScalingGroupName, PolicyName := some id }).2
    with err | r <;>
    simp [getClassicAutoScalingGroup, World.call, hgroup, h]

/-- C4: the requests issued by create, get and delete of an auto scaling policy over
any recording SDK.  Each operation issues at least one request.  With
`SupportVPC = false` every request goes to the classic family, carries no region code
and designates the policy and the group through name fields only, the policy name
being the configured name (create) or the id (get, delete).  With `SupportVPC = true`
every request goes to the VPC family, carries the region code of the configuration
and designates the group through `AutoScalingGroupNo`; get and delete designate the
policy through number fields, get with the id and group number it was given.  No
operation issues requests of both families.

The requests themselves are pinned.  With `SupportVPC = true` create issues exactly
the put with the region code, the configured group number and the configured name;
get issues exactly the list request with the region code, `AutoScalingGroupNo` and
`PolicyNoList = [id]`; delete issues that list request and, when it yields a policy,
exactly one `DeleteScalingPolicy` with the region code and the `AutoScalingGroupNo`
and `PolicyNo` of that policy, and nothing more when it yields none.  With
`SupportVPC = false`, whenever the parent lookup yields a group, create issues the
lookup and then exactly the put with `AutoScalingGroupName` of that group and the
configured `PolicyName`, get the lookup and then the list request with
`PolicyNameList = [id]` and that `AutoScalingGroupName`, delete the lookup and then
`DeletePolicy` with that `AutoScalingGroupName` and `PolicyName = id`. -/
theorem routing_by_account_model {σ : Type} (sdk : Sdk σ) (d : PolicyResourceData)
    (config : ProviderConfig) (id autoScalingGroupNo : String) (s : σ) :
    let createCalls := (createAutoScalingPolicy sdk d config (World.start s)).1.calls
    let getCalls := (GetAutoScalingPolicy sdk config id autoScalingGroupNo (World.start s)).1.calls
    let deleteCalls :=
      (deleteAutoScalingPolicy sdk config id autoScalingGroupNo (World.start s)).1.calls
    let vpcList : VpcGetAutoScalingPolicyListRequest :=
      { RegionCode := some config.RegionCode, AutoScalingGroupNo := some autoScalingGroupNo,
        PolicyNoList := [some id] }
    (createCalls ≠ [] ∧ getCalls ≠ [] ∧ deleteCalls ≠ []) ∧
    (config.SupportVPC = false →
      (∀ c ∈ createCalls ++ getCalls ++ deleteCalls,
        c.family = .classic ∧ c.regionCode = none ∧
          ∀ r ∈ c.policyRefs ++ c.groupRefs, r.isName = true) ∧
      (∀ c ∈ createCalls, ∀ r ∈ c.policyRefs, r = .name (some d.name)) ∧
      (∀ c ∈ getCalls ++ deleteCalls, ∀ r ∈ c.policyRefs, r = .name (some id))) ∧
    (config.SupportVPC = true →
      (∀ c ∈ createCalls ++ getCalls ++ deleteCalls,
        c.family = .vpc ∧ c.regionCode = some config.RegionCode ∧
          ∀ r ∈ c.groupRefs, r.isNo = true) ∧
      (∀ c ∈ getCalls ++ deleteCalls, ∀ r ∈ c.policyRefs, r.isNo = true) ∧
      (∀ c ∈ getCalls,
        c.policyRefs = [.no (some id)] ∧ c.groupRefs = [.no (some autoScalingGroupNo)])) ∧
    (∀ calls ∈ [createCalls, getCalls, deleteCalls],
      ∀ c₁ ∈ calls, ∀ c₂ ∈ calls, c₁.family = c₂.family) ∧
    (config.SupportVPC = true →
      createCalls =
        [.vpcPutScalingPolicy
          { RegionCode := some config.RegionCode
            AdjustmentTypeCode := some d.adjustment_type_code
            ScalingAdjustment := some (int32 d.scaling_adjustment)
            AutoScalingGroupNo := some d.auto_scaling_group_no
            PolicyName := some d.name
            MinAdjustmentStep := Int32PtrOrNil (GetOkInt d.min_adjustment_step)
            CoolDown := Int32PtrOrNil (GetOkInt d.cooldown) }] ∧
      getCalls = [.vpcGetAutoScalingPolicyList vpcList] ∧
      (∀ p rest t,
        (sdk.vpcGetAutoScalingPolicyList s vpcList).2 = .ok (p :: rest) →
        p.AdjustmentType = some t →
        deleteCalls =
          [.vpcGetAutoScalingPolicyList vpcList,
            .vpcDeleteScalingPolicy
              { RegionCode := some config.RegionCode
                AutoScalingGroupNo := p.AutoScalingGroupNo
                PolicyNo := p.PolicyNo }]) ∧
      ((∀ p rest, (sdk.vpcGetAutoScalingPolicyList s vpcList).2 ≠ .ok (p :: rest)) →
        deleteCalls = [.vpcGetAutoScalingPolicyList vpcList])) ∧
    (config.SupportVPC = false →
      (∀ asg,
        (sdk.classicGetAutoScalingGroup s d.auto_scaling_group_no).2 = .ok (some asg) →
        createCalls =
          [.classicGetAutoScalingGroup d.auto_scaling_group_no,
            .classicPutScalingPolicy
              { AdjustmentTypeCode := some d.adjustment_type_code
                ScalingAdjustment := some (int32 d.scaling_adjustment)
                AutoScalingGroupName := asg.AutoScalingGroupName
                PolicyName := some d.name
                MinAdjustmentStep := Int32PtrOrNil (GetOkInt d.min_adjustment_step)
                Cooldown := Int32PtrOrNil (GetOkInt d.cooldown) }]) ∧
      (∀ asg,
        (sdk.classicGetAutoScalingGroup s autoScalingGroupNo).2 = .ok (some asg) →
        getCalls =
          [.classicGetAutoScalingGroup autoScalingGroupNo,
            .classicGetAutoScalingPolicyList
              { PolicyNameList := [some id]
                AutoScalingGroupName := asg.AutoScalingGroupName }] ∧
        deleteCalls =
          [.classicGetAutoScalingGroup autoScalingGroupNo,
            .classicDeletePolicy
              { AutoScalingGroupName := asg.AutoScalingGroupName
                PolicyName := some id }])) := by
  intro createCalls getCalls deleteCalls vpcList
  have hlog := routing_logged_calls sdk d config id autoScalingGroupNo s
  refine ⟨hlog.1, hlog.2.1, hlog.2.2.1, hlog.2.2.2, ?_, ?_⟩
  · intro hv
    have hc : createCalls = (createVpcAutoScalingPolicy sdk d config (World.start s)).1.calls := by
      simp [createCalls, createAutoScalingPolicy, hv]
    have hg : getCalls =
        (getVpcAutoScalingPolicy sdk config id autoScalingGroupNo (World.start s)).1.calls := by
      simp [getCalls, GetAutoScalingPolicy, hv]
    have hd : deleteCalls =
        (deleteVpcAutoScalingPolicy sdk config id autoScalingGroupNo (World.start s)).1.calls := by
      simp [deleteCalls, deleteAutoScalingPolicy, hv]
    refine ⟨?_, ?_, ?_, ?_⟩
    · rw [hc, createVpcAutoScalingPolicy_calls]
      rfl
    · rw [hg, getVpcAutoScalingPolicy_calls]
      rfl
    · intro p rest t hlist htype
      rw [hd, deleteVpcAutoScalingPolicy_calls_of_found sdk config id autoScalingGroupNo
        (World.start s) p rest t hlist htype]
      rfl
    · intro hlist
      rw [hd, deleteVpcAutoScalingPolicy_calls_of_missing sdk config id autoScalingGroupNo
        (World.start s) hlist]
      rfl
  · intro hv
    have hc : createCalls = (createClassicAutoScalingPolicy sdk d (World.start s)).1.calls := by
      simp [createCalls, createAutoScalingPolicy, hv]
    have hg : getCalls =
        (getClassicAutoScalingPolicy sdk id autoScalingGroupNo (World.start s)).1.calls := by
      simp [getCalls, GetAutoScalingPolicy, hv]
    have hd : deleteCalls =
        (deleteClassicAutoScalingPolicy sdk id autoScalingGroupNo (World.start s)).1.calls := by
      simp [deleteCalls, deleteAutoScalingPolicy, hv]
    refine ⟨?_, ?_⟩
    · intro asg hgroup
      rw [hc, createClassicAutoScalingPolicy_calls_of_group sdk d (World.start s) asg hgroup]
      rfl
    · intro asg hgroup
      rw [hg, hd,
        getClassicAutoScalingPolicy_calls_of_group sdk id autoScalingGroupNo (World.start s) asg
          hgroup,
        deleteClassicAutoScalingPolicy_calls_of_group sdk id autoScalingGroupNo (World.start s)
          asg hgroup]
      exact ⟨rfl, rfl⟩

/-- Witness of C4 on the platform that holds the policy `scale-in` under number `1`
in group `100`: the delete of the VPC model sends the list request and then
`DeleteScalingPolicy` by region code, group number and policy number; the delete of
the classic model sends the parent lookup and then `DeletePolicy` by group name and
policy name; the create of each model sends its put. -/
theorem routing_by_account_model_witness :
    (deleteAutoScalingPolicy Remote.sdk vpcConfig "1" "100" (World.start policyRemote)).1.calls =
      [.vpcGetAutoScalingPolicyList
          { RegionCode := some "KR", AutoScalingGroupNo := some "100",
            PolicyNoList := [some "1"] },
        .vpcDeleteScalingPolicy
          { RegionCode := some "KR", AutoScalingGroupNo := some "100", PolicyNo := some "1" }] ∧
    (deleteAutoScalingPolicy Remote.sdk classicConfig "scale-in" "100"
        (World.start policyRemote)).1.calls =
      [.classicGetAutoScalingGroup "100",
        .classicDeletePolicy
          { AutoScalingGroupName := some "asg", PolicyName := some "scale-in" }] ∧
    (createAutoScalingPolicy Remote.sdk fullPolicy vpcConfig (World.start policyRemote)).1.calls =
      [.vpcPutScalingPolicy
        { RegionCode := some "KR"
          AdjustmentTypeCode := some "PRCNT"
          ScalingAdjustment := some (-10)
          AutoScalingGroupNo := some "100"
          PolicyName := some "scale-in"
          MinAdjustmentStep := some 1
          CoolDown := some 300 }] ∧
    (createAutoScalingPolicy Remote.sdk fullPolicy classicConfig
        (World.start policyRemote)).1.calls =
      [.classicGetAutoScalingGroup "100",
        .classicPutScalingPolicy
          { AdjustmentTypeCode := some "PRCNT"
            ScalingAdjustment := some (-10)
            AutoScalingGroupName := some "asg"
            PolicyName := some "scale-in"
            MinAdjustmentStep := some 1
            Cooldown := some 300 }] := by
  have hv := routing_by_account_model Remote.sdk fullPolicy vpcConfig "1" "100" policyRemote
  have hc := routing_by_account_model Remote.sdk fullPolicy classicConfig "scale-in" "100"
    policyRemote
  refine ⟨?_, ?_, ?_, ?_⟩
  · exact (hv.2.2.2.2.1 rfl).2.2.1 _ _ _ rfl rfl
  · exact ((hc.2.2.2.2.2 rfl).2 _ rfl).2
  · exact ((hv.2.2.2.2.1 rfl).1).trans (by decide)
  · exact ((hc.2.2.2.2.2 rfl).1 _ rfl).trans (by decide)

/-! ### Update over a remote whose put is an upsert -/

/-- Reading a policy adds no put request to the log. -/
theorem GetAutoScalingPolicy_putRequests {σ : Type} (sdk : Sdk σ) (config : ProviderConfig)
    (id autoScalingGroupNo : String) (w : World σ) :
    putRequests (GetAutoScalingPolicy sdk config id autoScalingGroupNo w).1.calls =
      putRequests w.calls := by
  unfold GetAutoScalingPolicy
  cases config.SupportVPC
  · rcases getClassicAutoScalingPolicy_calls sdk id autoScalingGroupNo w with h | ⟨asg, -, h⟩ <;>
      simp [h, putRequests, SdkCall.isPut]
  · simp [getVpcAutoScalingPolicy_calls, putRequests, SdkCall.isPut]

/-- The read leaves the world as `GetAutoScalingPolicy` left it. -/
theorem resourceNcloudAutoScalingPolicyRead_world {σ : Type}
    (setPolicy : PolicyResourceData → AutoScalingPolicy → PolicyResourceData)
    (sdk : Sdk σ) (d : PolicyResourceData) (config : ProviderConfig) (w : World σ) :
    (resourceNcloudAutoScalingPolicyRead setPolicy sdk d config w).1 =
      (GetAutoScalingPolicy sdk config d.id d.auto_scaling_group_no w).1 := by
  unfold resourceNcloudAutoScalingPolicyRead
  rcases GetAutoScalingPolicy sdk config d.id d.auto_scaling_group_no w
    with ⟨w', (_ | p) | err | _⟩ <;> rfl

/-- Over lookups that keep the remote state, reading a policy keeps it too. -/
theorem GetAutoScalingPolicy_remote {σ : Type} (sdk : Sdk σ) (config : ProviderConfig)
    (id autoScalingGroupNo : String) (w : World σ)
    (hgroup : ∀ s no, (sdk.classicGetAutoScalingGroup s no).1 = s)
    (hlistC : ∀ s req, (sdk.classicGetAutoScalingPolicyList s req).1 = s)
    (hlistV : ∀ s req, (sdk.vpcGetAutoScalingPolicyList s req).1 = s) :
    (GetAutoScalingPolicy sdk config id autoScalingGroupNo w).1.remote = w.remote := by
  unfold GetAutoScalingPolicy
  cases config.SupportVPC
  · simp only [Bool.false_eq_true, if_false]
    unfold getClassicAutoScalingPolicy
    rcases hg : (sdk.classicGetAutoScalingGroup w.remote autoScalingGroupNo).2
      with err | (_ | asg)
    · simp [getClassicAutoScalingGroup, World.call, hg, hgroup]
    · simp [getClassicAutoScalingGroup, World.call, hg, hgroup]
    · rcases h : (sdk.classicGetAutoScalingPolicyList w.remote
        { PolicyNameList := [some id], AutoScalingGroupName := asg.AutoScalingGroupName }).2
        with err | resp
      · simp [getClassicAutoScalingGroup, World.call, hg, h, hgroup, hlistC]
      · rcases resp with _ | ⟨p, rest⟩
        · simp [getClassicAutoScalingGroup, World.call, hg, h, hgroup, hlistC]
        · cases hp : p.AdjustmentType <;>
            simp [getClassicAutoScalingGroup, World.call, hg, h, hp, hgroup, hlistC]
  · simp only [if_true]
    unfold getVpcAutoScalingPolicy
    rcases h : (sdk.vpcGetAutoScalingPolicyList w.remote
      { RegionCode := some config.RegionCode, AutoScalingGroupNo := some autoScalingGroupNo,
        PolicyNoList := [some id] }).2 with err | resp
    · simp [World.call, h, hlistV]
    · rcases resp with _ | ⟨p, rest⟩
      · simp [World.call, h, hlistV]
      · cases hp : p.AdjustmentType <;> simp [World.call, h, hp, hlistV]

/-- The update leaves the remote state as its create step left it, and update and create
issue the put requests of that step. -/
theorem resourceNcloudAutoScalingPolicyUpdate_world {σ : Type}
    (setPolicy : PolicyResourceData → AutoScalingPolicy → PolicyResourceData)
    (sdk : Sdk σ) (d : PolicyResourceData) (config : ProviderConfig) (w : World σ)
    (hgroup : ∀ s no, (sdk.classicGetAutoScalingGroup s no).1 = s)
    (hlistC : ∀ s req, (sdk.classicGetAutoScalingPolicyList s req).1 = s)
    (hlistV : ∀ s req, (sdk.vpcGetAutoScalingPolicyList s req).1 = s) :
    (resourceNcloudAutoScalingPolicyUpdate setPolicy sdk d config w).1.remote =
      (createAutoScalingPolicy sdk d config w).1.remote ∧
    putRequests (resourceNcloudAutoScalingPolicyUpdate setPolicy sdk d config w).1.calls =
      putRequests (createAutoScalingPolicy sdk d config w).1.calls ∧
    putRequests (resourceNcloudAutoScalingPolicyCreate setPolicy sdk d config w).1.calls =
      putRequests (createAutoScalingPolicy sdk d config w).1.calls := by
  unfold resourceNcloudAutoScalingPolicyUpdate resourceNcloudAutoScalingPolicyCreate
  rcases createAutoScalingPolicy sdk d config w with ⟨w', ⟨g, i⟩ | err | _⟩
  · simp only [resourceNcloudAutoScalingPolicyRead_world, GetAutoScalingPolicy_putRequests]
    exact ⟨GetAutoScalingPolicy_remote sdk config _ _ w' hgroup hlistC hlistV, trivial, trivial⟩
  · exact ⟨rfl, rfl, rfl⟩
  · exact ⟨rfl, rfl, rfl⟩

/-- Over an upsert, the create step repeated on the state it produced gives the same world
and outcome. -/
theorem createAutoScalingPolicy_again {σ : Type} (sdk : Sdk σ) (d : PolicyResourceData)
    (config : ProviderConfig) (s : σ)
    (hgroup : ∀ s no, (sdk.classicGetAutoScalingGroup s no).1 = s)
    (hputC : ∀ s req, sdk.classicPutScalingPolicy (sdk.classicPutScalingPolicy s req).1 req =
      sdk.classicPutScalingPolicy s req)
    (hputV : ∀ s req, sdk.vpcPutScalingPolicy (sdk.vpcPutScalingPolicy s req).1 req =
      sdk.vpcPutScalingPolicy s req)
    (hframe : ∀ s req no,
      (sdk.classicGetAutoScalingGroup (sdk.classicPutScalingPolicy s req).1 no).2 =
        (sdk.classicGetAutoScalingGroup s no).2) :
    createAutoScalingPolicy sdk d config
        (World.start (createAutoScalingPolicy sdk d config (World.start s)).1.remote) =
      createAutoScalingPolicy sdk d config (World.start s) := by
  unfold createAutoScalingPolicy
  cases config.SupportVPC
  · simp only [Bool.false_eq_true, if_false]
    unfold createClassicAutoScalingPolicy
    rcases hg : (sdk.classicGetAutoScalingGroup s d.auto_scaling_group_no).2
      with err | (_ | asg)
    · simp [getClassicAutoScalingGroup, World.call, World.start, hg, hgroup]
    · simp [getClassicAutoScalingGroup, World.call, World.start, hg, hgroup]
    · have hg' : (sdk.classicGetAutoScalingGroup
          (sdk.classicPutScalingPolicy s (classicPutRequest d asg)).1
          d.auto_scaling_group_no).2 = .ok (some asg) := by
        rw [hframe, hg]
      rcases h : (sdk.classicPutScalingPolicy s (classicPutRequest d asg)).2 with err | r <;>
        simp [getClassicAutoScalingGroup, World.call, World.start, hg, hg', h, hgroup, hputC]
  · simp only [if_true]
    unfold createVpcAutoScalingPolicy
    rcases h : (sdk.vpcPutScalingPolicy s (vpcPutRequest d config)).2 with err | resp
    · simp [World.call, World.start, h, hputV]
    · cases resp <;> simp [World.call, World.start, h, hputV]

/-- C8: over any SDK whose lookups leave the remote state as it is, whose put is an
upsert (a put repeated on the state it produced gives that state and the same
response) and does not change how a group resolves: the update run a second time with
the same resource data and configuration, on the remote state the first run left,
issues exactly the requests of the first run, its put requests being those create
issues; it leaves the remote state as the first run left it; and it ends as the first
run ended, so with no error whenever the first run ended with no error.  Under the
VPC model the put request is the one built from the configuration. -/
theorem update_idempotent {σ : Type}
    (setPolicy : PolicyResourceData → AutoScalingPolicy → PolicyResourceData)
    (sdk : Sdk σ) (d : PolicyResourceData) (config : ProviderConfig) (s : σ)
    (hgroup : ∀ s no, (sdk.classicGetAutoScalingGroup s no).1 = s)
    (hlistC : ∀ s req, (sdk.classicGetAutoScalingPolicyList s req).1 = s)
    (hlistV : ∀ s req, (sdk.vpcGetAutoScalingPolicyList s req).1 = s)
    (hputC : ∀ s req, sdk.classicPutScalingPolicy (sdk.classicPutScalingPolicy s req).1 req =
      sdk.classicPutScalingPolicy s req)
    (hputV : ∀ s req, sdk.vpcPutScalingPolicy (sdk.vpcPutScalingPolicy s req).1 req =
      sdk.vpcPutScalingPolicy s req)
    (hframe : ∀ s req no,
      (sdk.classicGetAutoScalingGroup (sdk.classicPutScalingPolicy s req).1 no).2 =
        (sdk.classicGetAutoScalingGroup s no).2) :
    let first := resourceNcloudAutoScalingPolicyUpdate setPolicy sdk d config (World.start s)
    let second := resourceNcloudAutoScalingPolicyUpdate setPolicy sdk d config
      (World.start first.1.remote)
    let create := resourceNcloudAutoScalingPolicyCreate setPolicy sdk d config (World.start s)
    second.1.calls = first.1.calls ∧
    putRequests second.1.calls = putRequests first.1.calls ∧
    putRequests first.1.calls = putRequests create.1.calls ∧
    (config.SupportVPC = true →
      putRequests first.1.calls = [.vpcPutScalingPolicy (vpcPutRequest d config)]) ∧
    (∀ asg, config.SupportVPC = false →
      (sdk.classicGetAutoScalingGroup s d.auto_scaling_group_no).2 = .ok (some asg) →
      putRequests first.1.calls = [.classicPutScalingPolicy (classicPutRequest d asg)]) ∧
    second.1.remote = first.1.remote ∧
    second.2 = first.2 ∧
    (first.2.2 = .ok () → second.2.2 = .ok ()) := by
  intro first second create
  have hworld := resourceNcloudAutoScalingPolicyUpdate_world setPolicy sdk d config
    (World.start s) hgroup hlistC hlistV
  have hsecond : second = first := by
    show resourceNcloudAutoScalingPolicyUpdate setPolicy sdk d config
        (World.start (resourceNcloudAutoScalingPolicyUpdate setPolicy sdk d config
          (World.start s)).1.remote) =
      resourceNcloudAutoScalingPolicyUpdate setPolicy sdk d config (World.start s)
    rw [hworld.1]
    unfold resourceNcloudAutoScalingPolicyUpdate
    rw [createAutoScalingPolicy_again sdk d config s hgroup hputC hputV hframe]
  refine ⟨by rw [hsecond], by rw [hsecond], hworld.2.1.trans hworld.2.2.symm, ?_, ?_,
    by rw [hsecond], by rw [hsecond], fun h => by rw [hsecond]; exact h⟩
  · intro hv
    rw [hworld.2.1]
    simp [createAutoScalingPolicy, hv, createVpcAutoScalingPolicy_calls, World.start,
      putRequests, SdkCall.isPut]
  · intro asg hv hg
    rw [hworld.2.1]
    simp only [createAutoScalingPolicy, hv, Bool.false_eq_true, if_false]
    rcases createClassicAutoScalingPolicy_calls sdk d (World.start s) with h | ⟨a, ha, h⟩
    · exfalso
      revert h
      unfold createClassicAutoScalingPolicy
      rcases hp : (sdk.classicPutScalingPolicy
        (sdk.classicGetAutoScalingGroup s d.auto_scaling_group_no).1
        (classicPutRequest d asg)).2 with err | r <;>
        simp [getClassicAutoScalingGroup, World.call, World.start, hg, hp]
    · have : a = asg := by
        have ha' : (sdk.classicGetAutoScalingGroup s d.auto_scaling_group_no).2
            = .ok (some a) := ha
        rw [hg] at ha'
        injection ha' with h1
        injection h1 with h2
        exact h2.symm
      subst this
      rw [h]
      simp [World.start, putRequests, SdkCall.isPut]

/-! ### The remote platform model is such an SDK -/

/-- The upsert of the platform model repeated on the state it produced changes nothing. -/
theorem Remote.upsert_again (key : StoredPolicy → Bool) (mk : String → StoredPolicy)
    (s : Remote) (hkey : ∀ no, key (mk no) = true) (hno : ∀ no, (mk no).PolicyNo = no) :
    Remote.upsert key mk (Remote.upsert key mk s).1 = Remote.upsert key mk s := by
  unfold Remote.upsert
  cases h : s.policies.find? key with
  | none => simp [hkey, hno, List.filter_filter]
  | some old => simp [hkey, hno, List.filter_filter]

/-- The VPC put of the platform model is an upsert. -/
theorem Remote.vpcPut_again (s : Remote) (req : VpcPutScalingPolicyRequest) :
    Remote.sdk.vpcPutScalingPolicy (Remote.sdk.vpcPutScalingPolicy s req).1 req =
      Remote.sdk.vpcPutScalingPolicy s req := by
  have h := Remote.upsert_again (Remote.vpcKey req) (Remote.vpcStored req) s
    (by simp [Remote.vpcKey, Remote.vpcStored]) (by simp [Remote.vpcStored])
  simp only [Remote.sdk, h]

/-- The classic put of the platform model is an upsert. -/
theorem Remote.classicPut_again (s : Remote) (req : ClassicPutScalingPolicyRequest) :
    Remote.sdk.classicPutScalingPolicy (Remote.sdk.classicPutScalingPolicy s req).1 req =
      Remote.sdk.classicPutScalingPolicy s req := by
  have h := Remote.upsert_again (Remote.classicKey req) (Remote.classicStored req) s
    (by simp [Remote.classicKey, Remote.classicStored]) (by simp [Remote.classicStored])
  simp only [Remote.sdk, h]

/-- An upsert of a policy leaves the groups as they are. -/
theorem Remote.upsert_groups (key : StoredPolicy → Bool) (mk : String → StoredPolicy)
    (s : Remote) : (Remote.upsert key mk s).1.groups = s.groups := by
  unfold Remote.upsert
  cases s.policies.find? key <;> rfl

/-- Witness of C8 on the remote platform model, under the VPC model: both runs of the
update end with no error, the second leaves the remote state as the first left it,
and the one put request of the first run is the one built from the configuration. -/
theorem update_idempotent_witness :
    (resourceNcloudAutoScalingPolicyUpdate setPolicyFields Remote.sdk fullPolicy vpcConfig
      (World.start Remote.initial)).2.2 = .ok () ∧
    (resourceNcloudAutoScalingPolicyUpdate setPolicyFields Remote.sdk fullPolicy vpcConfig
      (World.start (resourceNcloudAutoScalingPolicyUpdate setPolicyFields Remote.sdk fullPolicy
        vpcConfig (World.start Remote.initial)).1.remote)).2.2 = .ok () ∧
    (resourceNcloudAutoScalingPolicyUpdate setPolicyFields Remote.sdk fullPolicy vpcConfig
      (World.start (resourceNcloudAutoScalingPolicyUpdate setPolicyFields Remote.sdk fullPolicy
        vpcConfig (World.start Remote.initial)).1.remote)).1.remote =
      (resourceNcloudAutoScalingPolicyUpdate setPolicyFields Remote.sdk fullPolicy vpcConfig
        (World.start Remote.initial)).1.remote ∧
    putRequests (resourceNcloudAutoScalingPolicyUpdate setPolicyFields Remote.sdk fullPolicy
        vpcConfig (World.start Remote.initial)).1.calls =
      [.vpcPutScalingPolicy
        { RegionCode := some "KR"
          AdjustmentTypeCode := some "PRCNT"
          ScalingAdjustment := some (-10)
          AutoScalingGroupNo := some "100"
          PolicyName := some "scale-in"
          MinAdjustmentStep := some 1
          CoolDown := some 300 }] := by
  have h := update_idempotent setPolicyFields Remote.sdk fullPolicy vpcConfig Remote.initial
    (fun _ _ => rfl) (fun _ _ => rfl) (fun _ _ => rfl) Remote.classicPut_again
    Remote.vpcPut_again
    (fun s req no => by simp only [Remote.sdk, Remote.upsert_groups])
  exact ⟨by decide, h.2.2.2.2.2.2.2 (by decide), h.2.2.2.2.2.1, (h.2.2.2.1 rfl).trans (by decide)⟩

/-! ### Round trip away from the zero cooldown -/

/-- On an accepted `scaling_adjustment` the conversion `int32` is the identity. -/
theorem int32_of_validateScalingAdjustment (v : Int)
    (h : validateScalingAdjustment v = true) : int32 v = v := by
  simp only [validateScalingAdjustment, IntBetween, Bool.not_eq_true', Bool.or_eq_false_iff,
    decide_eq_false_iff_not] at h
  unfold int32
  omega

/-- After an upsert the stored policy is the first of the policies. -/
theorem Remote.upsert_policies (key : StoredPolicy → Bool) (mk : String → StoredPolicy)
    (s : Remote) :
    (Remote.upsert key mk s).1.policies =
      (Remote.upsert key mk s).2 :: s.policies.filter fun q => !key q := by
  unfold Remote.upsert
  cases s.policies.find? key <;> rfl

/-- An upsert stores the fields of the request under some policy number. -/
theorem Remote.upsert_stored (key : StoredPolicy → Bool) (mk : String → StoredPolicy)
    (s : Remote) : ∃ no, (Remote.upsert key mk s).2 = mk no := by
  unfold Remote.upsert
  cases h : s.policies.find? key with
  | none => exact ⟨_, rfl⟩
  | some old => exact ⟨_, rfl⟩

/-- Under the VPC model, on the remote platform model in any state: when the
configured `scaling_adjustment` is accepted by its validation, create succeeds and
`GetAutoScalingPolicy` with the identifiers create returned yields a policy with the
configured name, adjustment type, scaling adjustment and group number, the configured
`min_adjustment_step` when it is set to an accepted value, and the configured
`cooldown` when it is set to an accepted value other than `0`. -/
theorem vpc_round_trip (d : PolicyResourceData) (config : ProviderConfig) (s : Remote)
    (hvpc : config.SupportVPC = true)
    (hadj : validateScalingAdjustment d.scaling_adjustment = true) :
    ∃ no p,
      (createAutoScalingPolicy Remote.sdk d config (World.start s)).2 =
        .ok (some d.auto_scaling_group_no, some no) ∧
      (GetAutoScalingPolicy Remote.sdk config no d.auto_scaling_group_no
        (createAutoScalingPolicy Remote.sdk d config (World.start s)).1).2 = .ok (some p) ∧
      p.AutoScalingPolicyNo = some no ∧
      p.AutoScalingPolicyName = some d.name ∧
      p.AdjustmentTypeCode = some d.adjustment_type_code ∧
      p.ScalingAdjustment = some d.scaling_adjustment ∧
      p.AutoScalingGroupNo = some d.auto_scaling_group_no ∧
      (∀ v, d.cooldown = some v → validateCooldown v = true → v ≠ 0 → p.Cooldown = some v) ∧
      (∀ v, d.min_adjustment_step = some v → validateMinAdjustmentStep v = true →
        p.MinAdjustmentStep = some v) := by
  obtain ⟨no, hno⟩ := Remote.upsert_stored (Remote.vpcKey (vpcPutRequest d config))
    (Remote.vpcStored (vpcPutRequest d config)) s
  have hpol := Remote.upsert_policies (Remote.vpcKey (vpcPutRequest d config))
    (Remote.vpcStored (vpcPutRequest d config)) s
  have hopt := put_request_optional_fields d config ⟨none, none⟩
  have h32 : (vpcPutRequest d config).ScalingAdjustment = some d.scaling_adjustment := by
    simp [vpcPutRequest, int32_of_validateScalingAdjustment _ hadj]
  refine ⟨no,
    { AutoScalingPolicyNo := some no
      AutoScalingPolicyName := some d.name
      AutoScalingGroupNo := some d.auto_scaling_group_no
      AdjustmentTypeCode := some d.adjustment_type_code
      ScalingAdjustment := (vpcPutRequest d config).ScalingAdjustment
      Cooldown := (vpcPutRequest d config).CoolDown
      MinAdjustmentStep := (vpcPutRequest d config).MinAdjustmentStep },
    ?_, ?_, rfl, rfl, rfl, h32, rfl, ?_, ?_⟩
  · simp only [createAutoScalingPolicy, hvpc, if_true, createVpcAutoScalingPolicy, World.call,
      Remote.sdk, World.start, hno]
    simp [Remote.vpcStored, vpcPutRequest, Remote.toVpc]
  · simp only [createAutoScalingPolicy, GetAutoScalingPolicy, hvpc, if_true,
      createVpcAutoScalingPolicy, getVpcAutoScalingPolicy, World.call,
      Remote.sdk, World.start, hpol, hno]
    simp [Remote.vpcStored, vpcPutRequest, Remote.toVpc]
  · intro v hv hval hne
    exact (hopt.2.2.1 v hv hval hne).1
  · intro v hv hval
    exact (hopt.2.2.2.1 v hv hval).1

/-- Under the classic model, on the remote platform model in any state that holds the
configured group: when the configured `scaling_adjustment` is accepted by its
validation, create succeeds and `GetAutoScalingPolicy` with the identifiers create
returned yields a policy with the configured name, adjustment type, scaling
adjustment and group number, the configured `min_adjustment_step` when it is set to an
accepted value, and the configured `cooldown` when it is set to an accepted value
other than `0`. -/
theorem classic_round_trip (d : PolicyResourceData) (config : ProviderConfig) (s : Remote)
    (asg : AutoScalingGroup)
    (hclassic : config.SupportVPC = false)
    (hadj : validateScalingAdjustment d.scaling_adjustment = true)
    (hgroup : s.groups.find? (fun g => decide (g.AutoScalingGroupNo = some d.auto_scaling_group_no))
      = some asg) :
    ∃ p,
      (createAutoScalingPolicy Remote.sdk d config (World.start s)).2 =
        .ok (some d.auto_scaling_group_no, some d.name) ∧
      (GetAutoScalingPolicy Remote.sdk config d.name d.auto_scaling_group_no
        (createAutoScalingPolicy Remote.sdk d config (World.start s)).1).2 = .ok (some p) ∧
      p.AutoScalingPolicyName = some d.name ∧
      p.AdjustmentTypeCode = some d.adjustment_type_code ∧
      p.ScalingAdjustment = some d.scaling_adjustment ∧
      p.AutoScalingGroupNo = some d.auto_scaling_group_no ∧
      (∀ v, d.cooldown = some v → validateCooldown v = true → v ≠ 0 → p.Cooldown = some v) ∧
      (∀ v, d.min_adjustment_step = some v → validateMinAdjustmentStep v = true →
        p.MinAdjustmentStep = some v) := by
  have hpol := Remote.upsert_policies (Remote.classicKey (classicPutRequest d asg))
    (Remote.classicStored (classicPutRequest d asg)) s
  obtain ⟨no, hno⟩ := Remote.upsert_stored (Remote.classicKey (classicPutRequest d asg))
    (Remote.classicStored (classicPutRequest d asg)) s
  have hgroups := Remote.upsert_groups (Remote.classicKey (classicPutRequest d asg))
    (Remote.classicStored (classicPutRequest d asg)) s
  have hopt := put_request_optional_fields d config asg
  have h32 : (classicPutRequest d asg).ScalingAdjustment = some d.scaling_adjustment := by
    simp [classicPutRequest, int32_of_validateScalingAdjustment _ hadj]
  have hasg : asg.AutoScalingGroupNo = some d.auto_scaling_group_no := by
    have := List.find?_some hgroup
    simpa using this
  refine ⟨
    { AutoScalingPolicyNo := none
      AutoScalingPolicyName := some d.name
      AutoScalingGroupNo := asg.AutoScalingGroupNo
      AdjustmentTypeCode := some d.adjustment_type_code
      ScalingAdjustment := (classicPutRequest d asg).ScalingAdjustment
      Cooldown := (classicPutRequest d asg).Cooldown
      MinAdjustmentStep := (classicPutRequest d asg).MinAdjustmentStep },
    ?_, ?_, rfl, rfl, h32, hasg, ?_, ?_⟩
  · simp [createAutoScalingPolicy, hclassic, createClassicAutoScalingPolicy,
      getClassicAutoScalingGroup, World.call, Remote.sdk, World.start, hgroup]
  · simp only [createAutoScalingPolicy, GetAutoScalingPolicy, hclassic, Bool.false_eq_true,
      if_false, createClassicAutoScalingPolicy, getClassicAutoScalingPolicy,
      getClassicAutoScalingGroup, World.call, Remote.sdk, World.start, hgroup, hgroups, hpol, hno]
    simp [Remote.classicStored, classicPutRequest, Remote.toClassic]
  · intro v hv hval hne
    exact (hopt.2.2.1 v hv hval hne).2
  · intro v hv hval
    exact (hopt.2.2.2.1 v hv hval).2

/-! ### The names the validation accepts -/

/-- The expression is nullable exactly when it matches the empty input. -/
theorem Regex.nullable_iff (r : Regex) : r.nullable = true ↔ r.Matches [] := by
  constructor
  · intro h
    induction r with
    | empty => simp [Regex.nullable] at h
    | eps => exact .eps
    | cls rs => simp [Regex.nullable] at h
    | alt r s ihr ihs =>
      simp only [Regex.nullable, Bool.or_eq_true] at h
      rcases h with h | h
      · exact .altLeft (ihr h)
      · exact .altRight (ihs h)
    | cat r s ihr ihs =>
      simp only [Regex.nullable, Bool.and_eq_true] at h
      exact .cat (u := []) (v := []) (ihr h.1) (ihs h.2)
    | star r _ => exact .starNil
  · intro h
    generalize hw : ([] : List Char) = w at h
    induction h with
    | eps => rfl
    | cls h => cases hw
    | altLeft _ ih => simp [Regex.nullable, ih hw]
    | altRight _ ih => simp [Regex.nullable, ih hw]
    | cat _ _ ihr ihs =>
      obtain ⟨hu, hv⟩ := List.append_eq_nil.1 hw.symm
      simp [Regex.nullable, ihr hu.symm, ihs hv.symm]
    | starNil => rfl
    | starCons _ _ _ _ => rfl

/-- What the derivative by `c` matches, the expression matches after a leading `c`. -/
theorem Regex.matches_of_deriv (r : Regex) (c : Char) (w : List Char)
    (h : (r.deriv c).Matches w) : r.Matches (c :: w) := by
  induction r generalizing w with
  | empty => cases h
  | eps => cases h
  | cls rs =>
    simp only [Regex.deriv] at h
    split at h
    · cases h
      exact .cls (by assumption)
    · cases h
  | alt r s ihr ihs =>
    cases h with
    | altLeft h => exact .altLeft (ihr _ h)
    | altRight h => exact .altRight (ihs _ h)
  | cat r s ihr ihs =>
    simp only [Regex.deriv] at h
    split at h
    · rename_i hn
      cases h with
      | altLeft h =>
        cases h with
        | cat hr hs => exact .cat (u := c :: _) (ihr _ hr) hs
      | altRight h => exact .cat (u := []) ((Regex.nullable_iff r).1 hn) (ihs _ h)
    · cases h with
      | cat hr hs => exact .cat (u := c :: _) (ihr _ hr) hs
  | star r ih =>
    cases h with
    | cat hr hs => exact .starCons (u := c :: _) (ih _ hr) hs

/-- What the expression matches after a leading `c`, the derivative by `c` matches. -/
theorem Regex.deriv_of_matches (r : Regex) (c : Char) (w : List Char)
    (h : r.Matches (c :: w)) : (r.deriv c).Matches w := by
  generalize hx : c :: w = x at h
  induction h generalizing w with
  | eps => cases hx
  | cls h =>
    cases hx
    simp only [Regex.deriv, h, if_true]
    exact .eps
  | altLeft _ ih => exact .altLeft (ih _ hx)
  | altRight _ ih => exact .altRight (ih _ hx)
  | @cat r s u v hr hs ihr ihs =>
    simp only [Regex.deriv]
    cases u with
    | nil =>
      have hn := (Regex.nullable_iff r).2 hr
      simp only [hn, if_true]
      exact .altRight (ihs _ hx)
    | cons a u =>
      simp only [List.cons_append, List.cons.injEq] at hx
      obtain ⟨rfl, rfl⟩ := hx
      have h1 := Regex.Matches.cat (ihr _ rfl) hs
      split
      · exact .altLeft h1
      · exact h1
  | starNil => cases hx
  | @starCons r u v hr hs ihr ihs =>
    cases u with
    | nil => exact ihs _ hx
    | cons a u =>
      simp only [List.cons_append, List.cons.injEq] at hx
      obtain ⟨rfl, rfl⟩ := hx
      exact .cat (ihr _ rfl) hs

/-- The matcher decides the denotation. -/
theorem Regex.matchList_iff (r : Regex) (w : List Char) :
    r.matchList w = true ↔ r.Matches w := by
  induction w generalizing r with
  | nil => exact Regex.nullable_iff r
  | cons c w ih =>
    simp only [Regex.matchList]
    rw [ih]
    exact ⟨Regex.matches_of_deriv r c w, Regex.deriv_of_matches r c w⟩


/-- The class `a-z` is `Char.isLower`. -/
theorem inClass_lower (c : Char) : Regex.inClass [('a', 'z')] c = c.isLower := by
  simp only [Regex.inClass, List.any_cons, List.any_nil, Bool.or_false, Char.isLower]
  rw [Bool.eq_iff_iff]
  simp only [Bool.and_eq_true, decide_eq_true_eq, ge_iff_le, UInt32.le_def, Char.toNat,
    Fin.le_def]
  exact Iff.rfl

/-- The class `0-9` is `Char.isDigit`. -/
theorem inClass_digit (c : Char) : Regex.inClass [('0', '9')] c = c.isDigit := by
  simp only [Regex.inClass, List.any_cons, List.any_nil, Bool.or_false, Char.isDigit]
  rw [Bool.eq_iff_iff]
  simp only [Bool.and_eq_true, decide_eq_true_eq, ge_iff_le, UInt32.le_def, Char.toNat,
    Fin.le_def]
  exact Iff.rfl

/-- The class of the hyphen alone. -/
theorem inClass_hyphen (c : Char) : Regex.inClass [('-', '-')] c = (c == '-') := by
  simp only [Regex.inClass, List.any_cons, List.any_nil, Bool.or_false]
  rw [Bool.eq_iff_iff]
  simp only [Bool.and_eq_true, decide_eq_true_eq, beq_iff_eq]
  constructor
  · intro h
    apply Char.ext
    apply UInt32.ext
    exact Nat.le_antisymm h.2 h.1
  · rintro rfl
    exact ⟨le_refl _, le_refl _⟩

/-- A class is the union of its first range and the rest. -/
theorem Regex.inClass_cons (p : Char × Char) (rs : List (Char × Char)) (c : Char) :
    Regex.inClass (p :: rs) c = (Regex.inClass [p] c || Regex.inClass rs c) := by
  simp [Regex.inClass]

/-- A class matches exactly the one-character inputs of the class. -/
theorem Regex.matches_cls_iff (rs : List (Char × Char)) (w : List Char) :
    (Regex.cls rs).Matches w ↔ ∃ c, w = [c] ∧ Regex.inClass rs c = true := by
  constructor
  · intro h
    cases h with
    | cls h => exact ⟨_, rfl, h⟩
  · rintro ⟨c, rfl, h⟩
    exact .cls h

/-- A concatenation matches exactly the inputs that split into a match of each part. -/
theorem Regex.matches_cat_iff (r s : Regex) (w : List Char) :
    (Regex.cat r s).Matches w ↔ ∃ u v, w = u ++ v ∧ r.Matches u ∧ s.Matches v := by
  constructor
  · intro h
    cases h with
    | cat hr hs => exact ⟨_, _, rfl, hr, hs⟩
  · rintro ⟨u, v, rfl, hr, hs⟩
    exact .cat hr hs

/-- The star of a class matches exactly the inputs made of characters of the class. -/
theorem Regex.matches_star_cls_iff (rs : List (Char × Char)) (w : List Char) :
    (Regex.star (.cls rs)).Matches w ↔ ∀ c ∈ w, Regex.inClass rs c = true := by
  constructor
  · intro h
    generalize hr : Regex.star (.cls rs) = r at h
    induction h with
    | eps => cases hr
    | cls _ => cases hr
    | altLeft _ _ => cases hr
    | altRight _ _ => cases hr
    | cat _ _ _ _ => cases hr
    | starNil => simp
    | starCons h1 _ _ ih =>
      cases hr
      cases h1 with
      | cls hc =>
        intro c hmem
        simp only [List.singleton_append, List.mem_cons] at hmem
        rcases hmem with rfl | hmem
        · exact hc
        · exact ih rfl c hmem
  · intro h
    induction w with
    | nil => exact .starNil
    | cons c w ih =>
      exact .starCons (u := [c]) (.cls (h c (List.mem_cons_self _ _)))
        (ih fun x hx => h x (List.mem_cons_of_mem _ hx))

/-- The plus of a class matches exactly the non-empty inputs made of characters of the class. -/
theorem Regex.matches_plus_cls_iff (rs : List (Char × Char)) (w : List Char) :
    (Regex.plus (.cls rs)).Matches w ↔ w ≠ [] ∧ ∀ c ∈ w, Regex.inClass rs c = true := by
  unfold Regex.plus
  rw [Regex.matches_cat_iff]
  constructor
  · rintro ⟨u, v, rfl, hu, hv⟩
    obtain ⟨c, rfl, hc⟩ := (Regex.matches_cls_iff rs u).1 hu
    refine ⟨by simp, fun x hx => ?_⟩
    simp only [List.singleton_append, List.mem_cons] at hx
    rcases hx with rfl | hx
    · exact hc
    · exact (Regex.matches_star_cls_iff rs v).1 hv x hx
  · rintro ⟨hne, h⟩
    cases w with
    | nil => exact absurd rfl hne
    | cons c w =>
      exact ⟨[c], w, rfl, .cls (h c (List.mem_cons_self _ _)),
        (Regex.matches_star_cls_iff rs w).2 fun x hx => h x (List.mem_cons_of_mem _ hx)⟩

/-- The pattern of `name` matches a non-empty run of letters, a non-empty run of letters,
digits and hyphens, and one final letter or digit. -/
theorem nameRegex_matches_iff (w : List Char) :
    nameRegex.Matches w ↔
      ∃ u v c, w = u ++ (v ++ [c]) ∧ u ≠ [] ∧ (∀ x ∈ u, x.isLower = true) ∧ v ≠ [] ∧
        (∀ x ∈ v, (x.isLower || x.isDigit || x == '-') = true) ∧
        (c.isLower || c.isDigit) = true := by
  have hA : ∀ x, Regex.inClass [('a', 'z')] x = x.isLower := inClass_lower
  have hB : ∀ x, Regex.inClass [('a', 'z'), ('0', '9'), ('-', '-')] x =
      (x.isLower || x.isDigit || x == '-') := by
    intro x
    rw [Regex.inClass_cons ('a', 'z') [('0', '9'), ('-', '-')],
      Regex.inClass_cons ('0', '9') [('-', '-')], inClass_lower, inClass_digit, inClass_hyphen,
      Bool.or_assoc]
  have hC : ∀ x, Regex.inClass [('a', 'z'), ('0', '9')] x = (x.isLower || x.isDigit) := by
    intro x
    rw [Regex.inClass_cons ('a', 'z') [('0', '9')], inClass_lower, inClass_digit]
  unfold nameRegex
  simp only [Regex.matches_cat_iff, Regex.matches_plus_cls_iff, Regex.matches_cls_iff, hA, hB, hC]
  constructor
  · rintro ⟨u, t, rfl, ⟨hu, hu'⟩, v, t', rfl, ⟨hv, hv'⟩, c, rfl, hc⟩
    exact ⟨u, v, c, rfl, hu, hu', hv, hv', hc⟩
  · rintro ⟨u, v, c, rfl, hu, hu', hv, hv', hc⟩
    exact ⟨u, v ++ [c], rfl, ⟨hu, hu'⟩, v, [c], rfl, ⟨hv, hv'⟩, c, rfl, hc⟩


/-- A lowercase letter, digit or hyphen takes one byte. -/
theorem utf8Size_of_nameChar (c : Char) (h : (c.isLower || c.isDigit || c == '-') = true) :
    c.utf8Size = 1 := by
  have hnat : c.toNat ≤ 127 := by
    rw [← inClass_lower, ← inClass_digit, ← inClass_hyphen] at h
    simp only [Regex.inClass, List.any_cons, List.any_nil, Bool.or_false, Bool.or_eq_true,
      Bool.and_eq_true, decide_eq_true_eq] at h
    have hz : ('z' : Char).toNat = 122 := rfl
    have h9 : ('9' : Char).toNat = 57 := rfl
    have hh : ('-' : Char).toNat = 45 := rfl
    omega
  have hle : c.val ≤ 127 := hnat
  simp [Char.utf8Size, hle]

/-- For an input of lowercase letters, digits and hyphens the length in bytes is the length. -/
theorem utf8ByteSize_go_of_nameChars (w : List Char)
    (h : ∀ c ∈ w, (c.isLower || c.isDigit || c == '-') = true) :
    String.utf8ByteSize.go w = w.length := by
  induction w with
  | nil => rfl
  | cons c w ih =>
    simp only [String.utf8ByteSize.go, List.length_cons]
    rw [ih fun x hx => h x (List.mem_cons_of_mem _ hx),
      utf8Size_of_nameChar c (h c (List.mem_cons_self _ _))]

/-- The shape the pattern matches is the rule of the message on at least three characters. -/
theorem shape_iff_rule (w : List Char) :
    (∃ u v c, w = u ++ (v ++ [c]) ∧ u ≠ [] ∧ (∀ x ∈ u, x.isLower = true) ∧ v ≠ [] ∧
        (∀ x ∈ v, (x.isLower || x.isDigit || x == '-') = true) ∧
        (c.isLower || c.isDigit) = true) ↔
      3 ≤ w.length ∧ (∀ x ∈ w, (x.isLower || x.isDigit || x == '-') = true) ∧
        (∃ a, w.head? = some a ∧ a.isLower = true) ∧
        (∃ c, w.getLast? = some c ∧ (c.isLower || c.isDigit) = true) := by
  constructor
  · rintro ⟨u, v, c, rfl, hu, hu', hv, hv', hc⟩
    obtain ⟨a, u', rfl⟩ := List.exists_cons_of_ne_nil hu
    obtain ⟨b, v', rfl⟩ := List.exists_cons_of_ne_nil hv
    refine ⟨by simp; omega, ?_, ⟨a, by simp, hu' a (List.mem_cons_self _ _)⟩, ⟨c, ?_, hc⟩⟩
    · intro x hx
      simp only [List.mem_append, List.mem_singleton] at hx
      rcases hx with hx | hx | rfl
      · simp [hu' x hx]
      · exact hv' x hx
      · simp only [Bool.or_eq_true] at hc ⊢
        exact Or.inl hc
    · rw [← List.append_assoc, List.getLast?_append]
      simp
  · rintro ⟨hlen, hall, ⟨a, ha, ha'⟩, ⟨c, hc, hc'⟩⟩
    cases w with
    | nil => simp at hlen
    | cons a' w' =>
      simp only [List.head?_cons, Option.some.injEq] at ha
      subst ha
      have hne : w' ≠ [] := by
        intro h
        subst h
        simp at hlen
      obtain ⟨v, rfl⟩ : ∃ v, w' = v ++ [c] := by
        have h1 : w'.getLast? = some c := by
          cases w' with
          | nil => exact absurd rfl hne
          | cons b t => simpa using hc
        exact ⟨w'.dropLast, (List.dropLast_append_getLast? c h1).symm⟩
      refine ⟨[a'], v, c, rfl, by simp, by simpa using ha', ?_, ?_, hc'⟩
      · intro h
        subst h
        simp at hlen
      · intro x hx
        exact hall x (by simp [hx])


/-- The rule of the message, spelled out on the characters of the name. -/
theorem nameMessageRule_iff (s : String) :
    nameMessageRule s = true ↔
      (∀ x ∈ s.toList, (x.isLower || x.isDigit || x == '-') = true) ∧
        (∃ a, s.toList.head? = some a ∧ a.isLower = true) ∧
        (∃ c, s.toList.getLast? = some c ∧ (c.isLower || c.isDigit) = true) := by
  unfold nameMessageRule
  simp only [Bool.and_eq_true, List.all_eq_true]
  cases s.toList.head? <;> cases s.toList.getLast? <;> simp [and_assoc]

/-- The names the validation of `name` accepts: those of 3 to 255 characters that
satisfy the rule of the message. -/
theorem validateName_iff (s : String) :
    validateName s = true ↔ 3 ≤ s.length ∧ s.length ≤ 255 ∧ nameMessageRule s = true := by
  have hlen : s.length = s.toList.length := rfl
  have hsize : s.utf8ByteSize = String.utf8ByteSize.go s.toList := rfl
  unfold validateName StringLenBetween Regex.MatchString
  rw [Bool.and_eq_true, Regex.matchList_iff, nameRegex_matches_iff, shape_iff_rule,
    nameMessageRule_iff, hlen, hsize]
  simp only [Bool.not_eq_true', Bool.or_eq_false_iff, decide_eq_false_iff_not, not_lt, gt_iff_lt]
  constructor
  · rintro ⟨⟨_, h255⟩, h3, hall, hhead, hlast⟩
    rw [utf8ByteSize_go_of_nameChars _ hall] at h255
    exact ⟨h3, h255, hall, hhead, hlast⟩
  · rintro ⟨h3, h255, hall, hhead, hlast⟩
    rw [utf8ByteSize_go_of_nameChars _ hall]
    exact ⟨⟨by omega, h255⟩, h3, hall, hhead, hlast⟩

end Ncloud
